import Mathlib

/-!
Verification development for the nether-swap relayer backend.

This file gives a shallow embedding of the relayer's data model and
orchestration code (backend/src/services/RelayerService.ts,
backend/src/services/SwapOrderService.ts, backend/src/types/index.ts,
backend/src/domains/addresses/sui-address.ts) and proves properties of the
embedded definitions.

Modelling conventions:
- Machine integers and bigints are modelled as Nat (all quantities involved
  are non-negative; no overflow occurs in the modelled ranges).
- Asynchronous straight-line TypeScript is modelled as explicit state
  passing; every adapter (chain RPC) call is an input supplied through an
  environment record, with an Except result so that failure at any call site
  is representable.  The wall clock is an explicit Nat; waitUntilTime t
  advances the clock to max clock t.
- The JavaScript Map objects of the store are modelled as association lists
  with Map.set semantics; JavaScript object identity (needed because
  executeEvmSwapOrder mutates a fetched order object in place) is modelled
  with an explicit heap: records live in a list, maps store indices into it.
- External library functions (ethers keccak256, TypedDataEncoder.hash, the
  random salt/nonce) are parameters of the embedding.
-/

namespace NetherSwap

/-- UserIntent from backend/src/types/index.ts. -/
structure UserIntent where
  srcChainId : Nat
  dstChainId : Nat
  userAddress : String
  tokenAmount : String
  srcChainAsset : String
  dstChainAsset : String
  hashLock : String
  receiver : String
  deriving DecidableEq

/-- TimeLocks configuration passed to Sdk.TimeLocks.new (seven durations,
seconds, relative to a deployment timestamp). -/
structure TimeLocksCfg where
  srcWithdrawal : Nat
  srcPublicWithdrawal : Nat
  srcCancellation : Nat
  srcPublicCancellation : Nat
  dstWithdrawal : Nat
  dstPublicWithdrawal : Nat
  dstCancellation : Nat
  deriving DecidableEq

/-- The fixed TimeLocks configuration used at both construction sites in
RelayerService.ts (createDstImmutables and createEvmCrossChainOrder). -/
def relayerTimeLocks : TimeLocksCfg :=
  { srcWithdrawal := 5, srcPublicWithdrawal := 120, srcCancellation := 121,
    srcPublicCancellation := 122, dstWithdrawal := 10,
    dstPublicWithdrawal := 100, dstCancellation := 101 }

/-- Sdk TimeLocks.toSrcTimeLocks(deployedAt).privateWithdrawal: the absolute
time at which the source escrow's private withdrawal window opens. -/
def TimeLocksCfg.srcPrivateWithdrawal (tl : TimeLocksCfg) (deployedAt : Nat) : Nat :=
  deployedAt + tl.srcWithdrawal

/-- Sdk TimeLocks.toDstTimeLocks(deployedAt).privateWithdrawal: the absolute
time at which the destination escrow's private withdrawal window opens. -/
def TimeLocksCfg.dstPrivateWithdrawal (tl : TimeLocksCfg) (deployedAt : Nat) : Nat :=
  deployedAt + tl.dstWithdrawal

/-- The fields of an Sdk.EvmCrossChainOrder that RelayerService reads
(createEvmCrossChainOrder builds it; executeEvmSwapOrder and
createSrcImmutables read it). -/
structure SdkOrder where
  salt : Nat
  maker : String
  makingAmount : Nat
  takingAmount : Nat
  makerAsset : String
  takerAsset : String
  receiver : String
  hashLock : String
  timeLocks : TimeLocksCfg
  srcSafetyDeposit : Nat
  dstSafetyDeposit : Nat
  nonce : Nat
  deriving DecidableEq

/-- EIP-712 typed data as produced by generateOrderTypedData: the SDK order
payload together with the overridden domain fields that RelayerService sets. -/
structure EIP712TypedData where
  domainChainId : Nat
  verifyingContract : String
  message : SdkOrder
  deriving DecidableEq

/-- SwapOrder record from backend/src/types/index.ts, together with the
fields that the store methods attach at runtime (deployedAt,
evmEscrowAddress, suiEscrowObjectId) and the two extra fields of
EvmSwapOrder (typedData and the SDK order), which are none on plain Sui-side
orders.  Dates are Nats (Unix seconds). -/
structure SwapOrderRec where
  orderHash : String
  userIntent : UserIntent
  signature : Option String := none
  secret : Option String := none
  escrowSrcTxHash : Option String := none
  escrowDstTxHash : Option String := none
  escrowDstWithdrawTxHash : Option String := none
  escrowSrcWithdrawTxHash : Option String := none
  deployedAt : Option Nat := none
  evmEscrowAddress : Option String := none
  suiEscrowObjectId : Option String := none
  typedData : Option EIP712TypedData := none
  sdkOrder : Option SdkOrder := none
  createdAt : Nat
  updatedAt : Nat
  deriving DecidableEq

/-- Lookup in a JavaScript Map modelled as an association list. -/
def mapGet {κ α : Type} [DecidableEq κ] : List (κ × α) → κ → Option α
  | [], _ => none
  | (k2, v) :: rest, k => if k2 = k then some v else mapGet rest k

/-- Map.set semantics: replace the value at an existing key in place,
otherwise append the new binding. -/
def mapSet {κ α : Type} [DecidableEq κ] : List (κ × α) → κ → α → List (κ × α)
  | [], k, v => [(k, v)]
  | (k2, v2) :: rest, k, v =>
      if k2 = k then (k2, v) :: rest else (k2, v2) :: mapSet rest k v

theorem mapGet_mapSet_self {κ α : Type} [DecidableEq κ]
    (m : List (κ × α)) (k : κ) (v : α) : mapGet (mapSet m k v) k = some v := by
  induction m with
  | nil => simp [mapGet, mapSet]
  | cons hd tl ih =>
      obtain ⟨k2, v2⟩ := hd
      by_cases h : k2 = k <;> simp [mapGet, mapSet, h, ih]

theorem mapGet_mapSet_ne {κ α : Type} [DecidableEq κ]
    (m : List (κ × α)) (k k2 : κ) (v : α) (h : k ≠ k2) :
    mapGet (mapSet m k v) k2 = mapGet m k2 := by
  induction m with
  | nil => simp [mapGet, mapSet, h]
  | cons hd tl ih =>
      obtain ⟨k3, v3⟩ := hd
      by_cases h3 : k3 = k
      · subst h3
        simp [mapGet, mapSet, h]
      · simp only [mapSet, if_neg h3, mapGet]
        by_cases h4 : k3 = k2 <;> simp [h4, ih]

/-- In-memory store from backend/src/services/SwapOrderService.ts (the
revision that RelayerService.ts calls into).  The heap models JavaScript
object identity: the maps store heap indices, and two map entries may point
at the same object. -/
structure SwapOrderService where
  heap : List SwapOrderRec := []
  orders : List (String × Nat) := []
  evmSwapOrders : List (String × Nat) := []
  userOrders : List (String × List String) := []
  deriving DecidableEq

namespace SwapOrderService

/-- getOrderByHash: this.orders.get(orderHash). -/
def getOrderByHash (s : SwapOrderService) (h : String) : Option SwapOrderRec :=
  (mapGet s.orders h).bind fun r => s.heap[r]?

/-- getEvmOrderByHash: this.evmSwapOrders.get(orderHash). -/
def getEvmOrderByHash (s : SwapOrderService) (h : String) : Option SwapOrderRec :=
  (mapGet s.evmSwapOrders h).bind fun r => s.heap[r]?

/-- Shared shape of the field-update methods on the orders map: look the
order up, allocate a fresh object with the updated fields (the spread
pattern) and point this.orders at it; a missing order is a logged no-op. -/
def updOrder (s : SwapOrderService) (h : String) (f : SwapOrderRec → SwapOrderRec) :
    SwapOrderService :=
  match mapGet s.orders h with
  | none => s
  | some r =>
      match s.heap[r]? with
      | none => s
      | some o =>
          { s with heap := s.heap ++ [f o],
                   orders := mapSet s.orders h s.heap.length }

/-- addSecret. -/
def addSecret (s : SwapOrderService) (h secret : String) (now : Nat) : SwapOrderService :=
  s.updOrder h fun o => { o with secret := some secret, updatedAt := now }

/-- addEscrowSrcTxHash. -/
def addEscrowSrcTxHash (s : SwapOrderService) (h tx : String) (now : Nat) : SwapOrderService :=
  s.updOrder h fun o => { o with escrowSrcTxHash := some tx, updatedAt := now }

/-- addEscrowDstTxHash. -/
def addEscrowDstTxHash (s : SwapOrderService) (h tx : String) (now : Nat) : SwapOrderService :=
  s.updOrder h fun o => { o with escrowDstTxHash := some tx, updatedAt := now }

/-- addSuiEscrowObjectId. -/
def addSuiEscrowObjectId (s : SwapOrderService) (h objectId : String) (now : Nat) :
    SwapOrderService :=
  s.updOrder h fun o => { o with suiEscrowObjectId := some objectId, updatedAt := now }

/-- addEscrowSrcWithdrawTxHash. -/
def addEscrowSrcWithdrawTxHash (s : SwapOrderService) (h tx : String) (now : Nat) :
    SwapOrderService :=
  s.updOrder h fun o => { o with escrowSrcWithdrawTxHash := some tx, updatedAt := now }

/-- addEscrowDstWithdrawTxHash. -/
def addEscrowDstWithdrawTxHash (s : SwapOrderService) (h tx : String) (now : Nat) :
    SwapOrderService :=
  s.updOrder h fun o => { o with escrowDstWithdrawTxHash := some tx, updatedAt := now }

/-- addDeployedAt (a single field on the order; a second call replaces the
previous value). -/
def addDeployedAt (s : SwapOrderService) (h : String) (deployedAt : Nat) (now : Nat) :
    SwapOrderService :=
  s.updOrder h fun o => { o with deployedAt := some deployedAt, updatedAt := now }

/-- addEvmEscrowAddress. -/
def addEvmEscrowAddress (s : SwapOrderService) (h addr : String) (now : Nat) :
    SwapOrderService :=
  s.updOrder h fun o => { o with evmEscrowAddress := some addr, updatedAt := now }

/-- addEvmSignature: same spread-allocate pattern but on this.evmSwapOrders
only (this.orders is not updated by this method in the source). -/
def addEvmSignature (s : SwapOrderService) (h sig : String) (now : Nat) : SwapOrderService :=
  match mapGet s.evmSwapOrders h with
  | none => s
  | some r =>
      match s.heap[r]? with
      | none => s
      | some o =>
          { s with heap := s.heap ++ [{ o with signature := some sig, updatedAt := now }],
                   evmSwapOrders := mapSet s.evmSwapOrders h s.heap.length }

/-- updateOrderStatus in the revision RelayerService calls: it takes only the
hash, looks the order up (logging a warning when absent) and returns it
unchanged; it mutates nothing. -/
def updateOrderStatus (s : SwapOrderService) (h : String) :
    Option SwapOrderRec × SwapOrderService :=
  match s.getOrderByHash h with
  | none => (none, s)
  | some o => (some o, s)

/-- Push an order hash onto a user's index list. -/
def pushUserOrder (m : List (String × List String)) (ua h : String) :
    List (String × List String) :=
  match mapGet m ua with
  | none => mapSet m ua [h]
  | some l => mapSet m ua (l ++ [h])

/-- createEvmSwapOrder: stamp createdAt/updatedAt, insert the same object
into both this.evmSwapOrders and this.orders, and index it by the
lower-cased user address. -/
def createEvmSwapOrder (s : SwapOrderService) (orderData : SwapOrderRec) (now : Nat) :
    SwapOrderRec × SwapOrderService :=
  let order := { orderData with createdAt := now, updatedAt := now }
  let r := s.heap.length
  (order,
    { s with heap := s.heap ++ [order],
             evmSwapOrders := mapSet s.evmSwapOrders order.orderHash r,
             orders := mapSet s.orders order.orderHash r,
             userOrders := pushUserOrder s.userOrders
               order.userIntent.userAddress.toLower order.orderHash })

/-- createSwapOrder: the order hash is keccak256 of the JSON of the order
data extended with a random nonce; that external computation is supplied as
the freshHash parameter.  Only this.orders and the user index are updated. -/
def createSwapOrder (s : SwapOrderService) (userIntent : UserIntent)
    (freshHash : String) (now : Nat) : SwapOrderRec × SwapOrderService :=
  let order : SwapOrderRec :=
    { orderHash := freshHash, userIntent := userIntent, createdAt := now, updatedAt := now }
  let r := s.heap.length
  (order,
    { s with heap := s.heap ++ [order],
             orders := mapSet s.orders order.orderHash r,
             userOrders := pushUserOrder s.userOrders
               order.userIntent.userAddress.toLower order.orderHash })

end SwapOrderService

/-- Codes of the SwapError values thrown in the modelled paths, plus
VALIDATION_ERROR for the ValidationError class of types/index.ts (thrown
only by the express-validator middleware) and ADAPTER_ERROR standing for any
error escaping an adapter call. -/
inductive SwapErrorCode
  | ORDER_NOT_FOUND
  | INVALID_SECRET
  | ESCROW_NOT_DEPLOYED
  | UNSUPPORTED_CHAIN
  | RELAYER_REVEAL_FAILED
  | RELAYER_EXECUTE_FAILED
  | RELAYER_BUILD_FAILED
  | VALIDATION_ERROR
  | ADAPTER_ERROR
  deriving DecidableEq

/-- Configuration of one EvmResolver as read by RelayerService
(getResolverAddress, getEscrowFactory, getLimitOrder). -/
structure EvmResolverModel where
  chainId : Nat
  resolverAddress : String
  escrowFactory : String
  limitOrder : String
  deriving DecidableEq

/-- RelayerService registry state: the per-chain EVM resolver map and the
single Sui resolver slot. -/
structure RelayerService where
  resolvers : List (Nat × EvmResolverModel) := []
  suiResolver : Bool := false
  deriving DecidableEq

namespace RelayerService

/-- addResolver: this.resolvers.set(chainId, resolver). -/
def addResolver (rs : RelayerService) (chainId : Nat) (r : EvmResolverModel) :
    RelayerService :=
  { rs with resolvers := mapSet rs.resolvers chainId r }

/-- setSuiResolver: this.suiResolver = resolver (a separate field, not an
entry of the resolver map). -/
def setSuiResolver (rs : RelayerService) : RelayerService :=
  { rs with suiResolver := true }

/-- getSupportedChains: Array.from(this.resolvers.keys()). -/
def getSupportedChains (rs : RelayerService) : List Nat :=
  rs.resolvers.map Prod.fst

/-- getResolver: map lookup, throwing UNSUPPORTED_CHAIN when absent. -/
def getResolver (rs : RelayerService) (chainId : Nat) :
    Except SwapErrorCode EvmResolverModel :=
  match mapGet rs.resolvers chainId with
  | none => .error .UNSUPPORTED_CHAIN
  | some r => .ok r

/-- The two shapes a unified ChainResolver can take (SuiResolverWrapper or
EvmResolverWrapper). -/
inductive ChainResolverKind
  | sui
  | evm (r : EvmResolverModel)
  deriving DecidableEq

/-- getChainResolver: chain ids 101 and 1 are treated as Sui and served by
the Sui resolver wrapper; anything else goes through getResolver. -/
def getChainResolver (rs : RelayerService) (chainId : Nat) :
    Except SwapErrorCode ChainResolverKind :=
  if chainId = 101 ∨ chainId = 1 then
    .ok .sui
  else
    (rs.getResolver chainId).map .evm

end RelayerService

/-- The adapter calls the orchestrator can make, in the order they are
recorded in a run's call list. -/
inductive AdapterCall
  | deploySrc
  | deployDst
  | withdrawSrc
  | withdrawDst
  deriving DecidableEq

deriving instance DecidableEq for Except

/-- Outcome of one orchestration run: the (wrapped) result, the final store,
the final clock, the adapter calls made in order, and the (clock, store)
snapshots after each statement, the initial state first. -/
structure ExecOutcome where
  res : Except SwapErrorCode Unit
  store : SwapOrderService
  clock : Nat
  calls : List AdapterCall
  snaps : List (Nat × SwapOrderService)
  deriving DecidableEq

/-- Results of the chain calls an executeEvmSwapOrder run can make:
deployEscrowSrc on the source EVM resolver returning (txHash, escrowAddress,
deployedAt), and deployEscrowDst on the Sui resolver returning (txSignature,
escrowObjectId, withdrawAt). -/
structure EvmExecEnv where
  deploySrc : Except Unit (String × String × Nat)
  suiDeployDst : Except Unit (String × String × Nat)

/-- Results of the chain calls an executeSuiSwap run can make:
deployEscrowSrc on the Sui resolver returning (txSignature, escrowObjectId,
deployedAt, withdrawAt), and deployEscrowDst on the destination EVM resolver
returning (txHash, escrowAddress, deployedAt). -/
structure SuiExecEnv where
  suiDeploySrc : Except Unit (String × String × Nat × Nat)
  evmDeployDst : Except Unit (String × String × Nat)

/-- Results of the two withdraw calls a revealSecret run can make. -/
structure RevealEnv where
  withdrawSrcTx : Except Unit String
  withdrawDstTx : Except Unit String

/-- executeEvmSwapOrder from RelayerService.ts.  clock0 is the wall-clock
time when the call starts; waitUntilTime advances the clock to the target.
The try/catch is modelled branch by branch: every throw reaches the catch
block, which calls updateOrderStatus (a no-op on the store) and rethrows
RELAYER_EXECUTE_FAILED. -/
def executeEvmSwapOrder (rs : RelayerService) (env : EvmExecEnv)
    (s0 : SwapOrderService) (orderHash signature : String) (clock0 : Nat) : ExecOutcome :=
  match mapGet s0.evmSwapOrders orderHash with
  | none =>
      { res := .error .RELAYER_EXECUTE_FAILED, store := (s0.updateOrderStatus orderHash).2,
        clock := clock0, calls := [], snaps := [(clock0, s0)] }
  | some r =>
      match s0.heap[r]? with
      | none =>
          { res := .error .RELAYER_EXECUTE_FAILED, store := (s0.updateOrderStatus orderHash).2,
            clock := clock0, calls := [], snaps := [(clock0, s0)] }
      | some order =>
          let s1 := if order.signature = none
            then s0.addEvmSignature orderHash signature clock0 else s0
          match rs.getResolver order.userIntent.srcChainId with
          | .error _ =>
              { res := .error .RELAYER_EXECUTE_FAILED,
                store := (s1.updateOrderStatus orderHash).2,
                clock := clock0, calls := [], snaps := [(clock0, s0), (clock0, s1)] }
          | .ok _srcResolver =>
              -- order.signature = signature: in-place mutation of the object
              -- fetched at the start, i.e. of heap slot r.
              let s2 := { s1 with heap := s1.heap.set r { order with signature := some signature } }
              match order.sdkOrder with
              | none =>
                  -- order.order is undefined on a non-EVM record: the
                  -- resulting runtime error lands in the catch block.
                  { res := .error .RELAYER_EXECUTE_FAILED,
                    store := (s2.updateOrderStatus orderHash).2,
                    clock := clock0, calls := [], snaps := [(clock0, s0), (clock0, s1), (clock0, s2)] }
              | some sdkOrder =>
                  match env.deploySrc with
                  | .error _ =>
                      { res := .error .RELAYER_EXECUTE_FAILED,
                        store := (s2.updateOrderStatus orderHash).2,
                        clock := clock0, calls := [.deploySrc],
                        snaps := [(clock0, s0), (clock0, s1), (clock0, s2)] }
                  | .ok (escrowSrcTxHash, escrowAddress, deployedAt) =>
                      let s3 := s2.addEvmEscrowAddress orderHash escrowAddress clock0
                      let s4 := s3.addDeployedAt orderHash deployedAt clock0
                      let srcWithdrawalTime := sdkOrder.timeLocks.srcPrivateWithdrawal deployedAt
                      match env.suiDeployDst with
                      | .error _ =>
                          { res := .error .RELAYER_EXECUTE_FAILED,
                            store := (s4.updateOrderStatus orderHash).2,
                            clock := clock0, calls := [.deploySrc, .deployDst],
                            snaps := [(clock0, s0), (clock0, s1), (clock0, s2),
                                      (clock0, s3), (clock0, s4)] }
                      | .ok (txSignature, escrowObjectId, dstWithdrawalTime) =>
                          let c1 := max clock0 dstWithdrawalTime
                          let s5 := s4.addEscrowDstTxHash orderHash txSignature c1
                          let s6 := s5.addSuiEscrowObjectId orderHash escrowObjectId c1
                          let c2 := max c1 srcWithdrawalTime
                          let s7 := s6.addEscrowSrcTxHash orderHash escrowSrcTxHash c2
                          { res := .ok (), store := s7, clock := c2,
                            calls := [.deploySrc, .deployDst],
                            snaps := [(clock0, s0), (clock0, s1), (clock0, s2), (clock0, s3),
                                      (clock0, s4), (c1, s5), (c1, s6), (c2, s7)] }

/-- Hex-digit test for address/hash format checks. -/
def isHexChar (c : Char) : Bool :=
  c.isDigit || (c ≥ 'a' && c ≤ 'f') || (c ≥ 'A' && c ≤ 'F')

/-- Format accepted by Sdk.EvmAddress.fromString: 0x followed by 40 hex
digits. -/
def isValidEvmAddress (s : String) : Bool :=
  match s.toList with
  | '0' :: 'x' :: rest => rest.length = 40 && rest.all isHexChar
  | _ => false

/-- Format accepted by Sdk.HashLock.fromString: 0x followed by 64 hex
digits. -/
def isValidHashLock (s : String) : Bool :=
  match s.toList with
  | '0' :: 'x' :: rest => rest.length = 64 && rest.all isHexChar
  | _ => false

/-- Format accepted by the SuiAddress constructor
(domains/addresses/sui-address.ts): the literal 0x2, or 0x followed by an
even number (at most 64) of hex digits. -/
def isValidSuiAddress (s : String) : Bool :=
  if s = "0x2" then true
  else match s.toList with
       | '0' :: 'x' :: rest =>
           rest.length % 2 = 0 && rest.length ≤ 64 && rest.all isHexChar
       | _ => false

/-- Value of a decimal digit character. -/
def digitVal (c : Char) : Nat := c.toNat - 48

/-- Parse a non-empty all-digit character list as a Nat. -/
def digitsToNat? (cs : List Char) : Option Nat :=
  if cs ≠ [] ∧ cs.all Char.isDigit then
    some (cs.foldl (fun acc c => acc * 10 + digitVal c) 0)
  else none

/-- Split a character list at the dot separators (the list-level counterpart
of splitting a decimal string at the dots). -/
def splitDot : List Char → List (List Char)
  | [] => [[]]
  | c :: cs =>
      if c = '.' then [] :: splitDot cs
      else match splitDot cs with
           | [] => [[c]]
           | part :: parts => (c :: part) :: parts

/-- ethers parseUnits on a non-negative decimal string: the value in base
units (10 ^ decimals).  Returns none exactly when ethers would throw
(non-digit characters, empty parts, or more fractional digits than
decimals).  Negative amounts are outside the modelled fragment. -/
def parseUnits (s : String) (decimals : Nat) : Option Nat :=
  match splitDot s.toList with
  | [intPart] => (digitsToNat? intPart).map fun n => n * 10 ^ decimals
  | [intPart, fracPart] =>
      match digitsToNat? intPart, digitsToNat? fracPart with
      | some n, some f =>
          if fracPart.length ≤ decimals then
            some (n * 10 ^ decimals + f * 10 ^ (decimals - fracPart.length))
          else none
      | _, _ => none
  | _ => none

/-- parseEther 0.000001: the source's EVM-side safety deposit in wei. -/
def evmSafetyDeposit : Nat := 1000000000000

/-- Immutables as built by Sdk.Immutables.new followed by withDeployedAt. -/
structure Immutables where
  orderHash : String
  hashLock : String
  maker : String
  taker : String
  token : String
  amount : Nat
  safetyDeposit : Nat
  timeLocks : TimeLocksCfg
  deployedAt : Nat
  deriving DecidableEq

/-- createDstImmutables from RelayerService.ts: destination-escrow
immutables from the user intent, the order hash, the resolver's own address
as taker and the freshly fixed TimeLocks; address and amount parsing follow
the SDK constructors, so a malformed field makes the whole construction
throw (none). -/
def createDstImmutables (userIntent : UserIntent) (order : SwapOrderRec)
    (resolverAddress : String) (deployedAt : Nat) : Option Immutables :=
  if isValidHashLock userIntent.hashLock &&
     isValidEvmAddress userIntent.receiver &&
     isValidEvmAddress resolverAddress &&
     isValidEvmAddress userIntent.dstChainAsset then
    (parseUnits userIntent.tokenAmount 6).map fun amt =>
      { orderHash := order.orderHash,
        hashLock := userIntent.hashLock,
        maker := userIntent.receiver,
        taker := resolverAddress,
        token := userIntent.dstChainAsset,
        amount := amt,
        safetyDeposit := evmSafetyDeposit,
        timeLocks := relayerTimeLocks,
        deployedAt := deployedAt }
  else none

/-- executeSuiSwap from RelayerService.ts.  The swap request carries the
user intent and the user's signature over the sponsored transaction; the
order argument is the stored order the route looked up. -/
def executeSuiSwap (rs : RelayerService) (env : SuiExecEnv) (s0 : SwapOrderService)
    (swapIntent : UserIntent) (order : SwapOrderRec) (clock0 : Nat) : ExecOutcome :=
  -- parseUnits(tokenAmount, 9 or 6): a malformed amount throws before any
  -- chain interaction and lands in the catch block.
  match parseUnits swapIntent.tokenAmount
      (if swapIntent.srcChainAsset = "0x2::sui::SUI" then 9 else 6) with
  | none =>
      { res := .error .RELAYER_EXECUTE_FAILED,
        store := (s0.updateOrderStatus order.orderHash).2,
        clock := clock0, calls := [], snaps := [(clock0, s0)] }
  | some _amount =>
      match env.suiDeploySrc with
      | .error _ =>
          { res := .error .RELAYER_EXECUTE_FAILED,
            store := (s0.updateOrderStatus order.orderHash).2,
            clock := clock0, calls := [.deploySrc], snaps := [(clock0, s0)] }
      | .ok (txSignature, escrowObjectId, deployedAt, srcWithdrawalTime) =>
          let s1 := s0.addDeployedAt order.orderHash deployedAt clock0
          match rs.getResolver order.userIntent.dstChainId with
          | .error _ =>
              { res := .error .RELAYER_EXECUTE_FAILED,
                store := (s1.updateOrderStatus order.orderHash).2,
                clock := clock0, calls := [.deploySrc],
                snaps := [(clock0, s0), (clock0, s1)] }
          | .ok dstResolver =>
              match createDstImmutables order.userIntent order
                  dstResolver.resolverAddress deployedAt with
              | none =>
                  { res := .error .RELAYER_EXECUTE_FAILED,
                    store := (s1.updateOrderStatus order.orderHash).2,
                    clock := clock0, calls := [.deploySrc],
                    snaps := [(clock0, s0), (clock0, s1)] }
              | some immutables =>
                  match env.evmDeployDst with
                  | .error _ =>
                      { res := .error .RELAYER_EXECUTE_FAILED,
                        store := (s1.updateOrderStatus order.orderHash).2,
                        clock := clock0, calls := [.deploySrc, .deployDst],
                        snaps := [(clock0, s0), (clock0, s1)] }
                  | .ok (escrowDstTxHash, escrowAddress, evmDeployedAt) =>
                      let dstWithdrawalTime :=
                        immutables.timeLocks.dstPrivateWithdrawal evmDeployedAt
                      let s2 := s1.addDeployedAt order.orderHash evmDeployedAt clock0
                      let c1 := max clock0 dstWithdrawalTime
                      let s3 := s2.addEscrowDstTxHash order.orderHash escrowDstTxHash c1
                      let s4 := s3.addEvmEscrowAddress order.orderHash escrowAddress c1
                      let c2 := max c1 srcWithdrawalTime
                      let s5 := s4.addEscrowSrcTxHash order.orderHash txSignature c2
                      let s6 := s5.addSuiEscrowObjectId order.orderHash escrowObjectId c2
                      { res := .ok (), store := s6, clock := c2,
                        calls := [.deploySrc, .deployDst],
                        snaps := [(clock0, s0), (clock0, s1), (clock0, s2),
                                  (c1, s3), (c1, s4), (c2, s5), (c2, s6)] }

/-- Body of revealSecret (the try block) from RelayerService.ts, with the
exact codes of the SwapErrors it throws.  keccak models
ethers.keccak256(Buffer.from(secret, 'hex')). -/
def revealSecretBody (rs : RelayerService) (keccak : String → String) (env : RevealEnv)
    (s0 : SwapOrderService) (orderHash secret : String) (now : Nat) : ExecOutcome :=
  match s0.getOrderByHash orderHash with
  | none =>
      { res := .error .ORDER_NOT_FOUND, store := s0, clock := now,
        calls := [], snaps := [(now, s0)] }
  | some order =>
      let secretHash := keccak secret
      if secretHash ≠ order.userIntent.hashLock then
        { res := .error .INVALID_SECRET, store := s0, clock := now,
          calls := [], snaps := [(now, s0)] }
      else if order.escrowSrcTxHash = none ∨ order.escrowDstTxHash = none then
        { res := .error .ESCROW_NOT_DEPLOYED, store := s0, clock := now,
          calls := [], snaps := [(now, s0)] }
      else
        match rs.getChainResolver order.userIntent.srcChainId with
        | .error _ =>
            { res := .error .UNSUPPORTED_CHAIN, store := s0, clock := now,
              calls := [], snaps := [(now, s0)] }
        | .ok _srcResolver =>
            match rs.getChainResolver order.userIntent.dstChainId with
            | .error _ =>
                { res := .error .UNSUPPORTED_CHAIN, store := s0, clock := now,
                  calls := [], snaps := [(now, s0)] }
            | .ok _dstResolver =>
                match env.withdrawSrcTx with
                | .error _ =>
                    { res := .error .ADAPTER_ERROR, store := s0, clock := now,
                      calls := [.withdrawSrc], snaps := [(now, s0)] }
                | .ok srcTx =>
                    let s1 := s0.addEscrowSrcWithdrawTxHash orderHash srcTx now
                    match env.withdrawDstTx with
                    | .error _ =>
                        { res := .error .ADAPTER_ERROR, store := s1, clock := now,
                          calls := [.withdrawSrc, .withdrawDst],
                          snaps := [(now, s0), (now, s1)] }
                    | .ok dstTx =>
                        let s2 := s1.addEscrowDstWithdrawTxHash orderHash dstTx now
                        { res := .ok (), store := s2, clock := now,
                          calls := [.withdrawSrc, .withdrawDst],
                          snaps := [(now, s0), (now, s1), (now, s2)] }

/-- revealSecret: the catch block rethrows every failure as a SwapError with
code RELAYER_REVEAL_FAILED, leaving the store and call list of the body
untouched. -/
def revealSecret (rs : RelayerService) (keccak : String → String) (env : RevealEnv)
    (s0 : SwapOrderService) (orderHash secret : String) (now : Nat) : ExecOutcome :=
  let o := revealSecretBody rs keccak env s0 orderHash secret now
  match o.res with
  | .ok _ => o
  | .error _ => { o with res := .error .RELAYER_REVEAL_FAILED }

/-- Decimal string of n / 10 ^ d: integer part, then the fractional digits
left-padded to d and stripped of trailing zeros. -/
def decimalOfScaled (n d : Nat) : String :=
  let ip := n / 10 ^ d
  let fp := n % 10 ^ d
  if fp = 0 then toString ip
  else
    let fs := toString fp
    let padded := String.mk (List.replicate (d - fs.length) '0') ++ fs
    let trimmed := String.mk (padded.toList.reverse.dropWhile (fun c => c = '0')).reverse
    toString ip ++ "." ++ trimmed

/-- Number(parseFloat(s) / 10 ** d).toString() as used by newSuiSwapOrder.
The source computes this with binary floating point; the model is exact
decimal arithmetic, which agrees with the source on the plain integer
strings our theorems use.  Non-numeric strings (parseFloat NaN) are outside
the modelled fragment and returned unchanged. -/
def jsDivPow10 (s : String) (d : Nat) : String :=
  match digitsToNat? s.toList with
  | some n => decimalOfScaled n d
  | none => s

/-- newSuiSwapOrder from RelayerService.ts: it rescales
userIntent.tokenAmount in place (dividing by 10^9 for the native SUI asset
and by 10^6 otherwise) and then creates the order through
createSwapOrder. -/
def newSuiSwapOrder (s0 : SwapOrderService) (userIntent : UserIntent)
    (freshHash : String) (now : Nat) : SwapOrderRec × SwapOrderService :=
  let amountInSui :=
    if userIntent.srcChainAsset = "0x2::sui::SUI"
    then jsDivPow10 userIntent.tokenAmount 9
    else jsDivPow10 userIntent.tokenAmount 6
  let intent2 := { userIntent with tokenAmount := amountInSui }
  s0.createSwapOrder intent2 freshHash now

/-- External inputs of buildEvmSwapOrder: the random salt and nonce drawn by
createEvmCrossChainOrder, and ethers TypedDataEncoder.hash. -/
structure BuildEnv where
  salt : Nat
  nonce : Nat
  orderHashOf : EIP712TypedData → String

/-- parseUnits of the 0.000001 SUI destination safety deposit (9 decimals). -/
def suiSafetyDeposit : Nat := 1000

/-- Characters of a string before the first :: separator: the head of the
JavaScript split of a Sui coin type such as 0x2::sui::SUI. -/
def takeBeforeSep : List Char → List Char
  | [] => []
  | ':' :: ':' :: _ => []
  | c :: cs => c :: takeBeforeSep cs

/-- createEvmCrossChainOrder from RelayerService.ts.  The SDK constructors
validate the operand formats (addresses, hash lock, decimal amounts); the
relayer passes the intent fields through unchecked, so no nonzero-amount,
distinct-chain or supported-set condition appears here.  A format failure
makes the construction throw (none). -/
def createEvmCrossChainOrder (userIntent : UserIntent) (resolver : EvmResolverModel)
    (env : BuildEnv) : Option SdkOrder :=
  if isValidEvmAddress resolver.escrowFactory &&
     isValidHashLock userIntent.hashLock &&
     isValidEvmAddress userIntent.userAddress &&
     isValidEvmAddress userIntent.srcChainAsset &&
     isValidSuiAddress (String.mk (takeBeforeSep userIntent.dstChainAsset.toList)) &&
     isValidSuiAddress userIntent.receiver &&
     isValidEvmAddress resolver.resolverAddress then
    match parseUnits userIntent.tokenAmount 6,
          parseUnits userIntent.tokenAmount
            (if userIntent.dstChainAsset = "0x2::sui::SUI" then 9 else 6) with
    | some makingAmount, some takingAmount =>
        some { salt := env.salt,
               maker := userIntent.userAddress,
               makingAmount := makingAmount,
               takingAmount := takingAmount,
               makerAsset := userIntent.srcChainAsset,
               takerAsset := String.mk (takeBeforeSep userIntent.dstChainAsset.toList),
               receiver := userIntent.receiver,
               hashLock := userIntent.hashLock,
               timeLocks := relayerTimeLocks,
               srcSafetyDeposit := evmSafetyDeposit,
               dstSafetyDeposit := suiSafetyDeposit,
               nonce := env.nonce }
    | _, _ => none
  else none

/-- generateOrderTypedData: the SDK typed data with the domain overridden to
the source chain id and the limit-order contract address. -/
def generateOrderTypedData (srcChainId : Nat) (order : SdkOrder)
    (verifyingContract : String) : EIP712TypedData :=
  { domainChainId := srcChainId, verifyingContract := verifyingContract, message := order }

/-- buildEvmSwapOrder from RelayerService.ts: only srcChainId 42161 is
handled (anything else returns undefined without touching the store); the
try/catch wraps any thrown error as RELAYER_BUILD_FAILED.  Note there is no
intent validation here, and the route (routes/swap.ts) mounts no validation
middleware (the imports are commented out). -/
def buildEvmSwapOrder (rs : RelayerService) (env : BuildEnv) (s0 : SwapOrderService)
    (userIntent : UserIntent) (now : Nat) :
    Except SwapErrorCode (Option EIP712TypedData) × SwapOrderService :=
  if userIntent.srcChainId = 42161 then
    match rs.getResolver userIntent.srcChainId with
    | .error _ => (.error .RELAYER_BUILD_FAILED, s0)
    | .ok resolver =>
        match createEvmCrossChainOrder userIntent resolver env with
        | none => (.error .RELAYER_BUILD_FAILED, s0)
        | some order =>
            let typedData := generateOrderTypedData userIntent.srcChainId order resolver.limitOrder
            let orderHash := env.orderHashOf typedData
            let swapOrder : SwapOrderRec :=
              { orderHash := orderHash, userIntent := userIntent,
                typedData := some typedData, sdkOrder := some order,
                createdAt := now, updatedAt := now }
            (.ok (some typedData), (s0.createEvmSwapOrder swapOrder now).2)
  else (.ok none, s0)

/-- Registry mutations available on a RelayerService instance. -/
inductive RegistryOp
  | addResolver (chainId : Nat) (r : EvmResolverModel)
  | setSuiResolver
  deriving DecidableEq

/-- Chain id an operation registers, if any. -/
def RegistryOp.chainRegistered : RegistryOp → Option Nat
  | .addResolver c _ => some c
  | .setSuiResolver => none

/-- Apply a sequence of registry operations. -/
def applyRegistryOps (rs : RelayerService) : List RegistryOp → RelayerService
  | [] => rs
  | .addResolver c r :: rest => applyRegistryOps (rs.addResolver c r) rest
  | .setSuiResolver :: rest => applyRegistryOps rs.setSuiResolver rest

/-- Key list after a Map.set: unchanged when the key is present, appended
otherwise. -/
def keySet (keys : List Nat) (k : Nat) : List Nat :=
  if k ∈ keys then keys else keys ++ [k]

/-- The chain ids registered by a sequence of operations, starting from an
initial key list. -/
def registryChains (acc : List Nat) : List RegistryOp → List Nat
  | [] => acc
  | .addResolver c _ :: rest => registryChains (keySet acc c) rest
  | .setSuiResolver :: rest => registryChains acc rest

/-- RelayerService.create: a fresh service with the chain-42161 (Arbitrum)
EvmResolver registered and the Sui resolver installed in its own slot. -/
def RelayerService.create (ethResolver : EvmResolverModel) : RelayerService :=
  (({ } : RelayerService).addResolver 42161 ethResolver).setSuiResolver

/-! ### Store lemmas -/

theorem heap_lt {α : Type} {l : List α} {r : Nat} {o : α}
    (h : l[r]? = some o) : r < l.length :=
  (List.getElem?_eq_some_iff.mp h).1

theorem heap_append {α : Type} {l : List α} {r : Nat} {o : α}
    (h : l[r]? = some o) (x : α) : (l ++ [x])[r]? = some o := by
  rw [List.getElem?_append_left (heap_lt h)]
  exact h

theorem heap_concat {α : Type} (l : List α) (x : α) : (l ++ [x])[l.length]? = some x := by
  simp [List.getElem?_concat_length]

theorem heap_set_self {α : Type} {l : List α} {r : Nat} {o : α}
    (h : l[r]? = some o) (x : α) : (l.set r x)[r]? = some x := by
  simp [List.getElem?_set_self, heap_lt h]

namespace SwapOrderService

theorem getOrderByHash_inv {s : SwapOrderService} {h : String} {o : SwapOrderRec}
    (hs : s.getOrderByHash h = some o) :
    ∃ r, mapGet s.orders h = some r ∧ s.heap[r]? = some o := by
  unfold getOrderByHash at hs
  rcases hm : mapGet s.orders h with _ | r <;> rw [hm] at hs
  · simp at hs
  · simp only [Option.some_bind] at hs
    exact ⟨r, rfl, hs⟩

theorem getEvmOrderByHash_inv {s : SwapOrderService} {h : String} {o : SwapOrderRec}
    (hs : s.getEvmOrderByHash h = some o) :
    ∃ r, mapGet s.evmSwapOrders h = some r ∧ s.heap[r]? = some o := by
  unfold getEvmOrderByHash at hs
  rcases hm : mapGet s.evmSwapOrders h with _ | r <;> rw [hm] at hs
  · simp at hs
  · simp only [Option.some_bind] at hs
    exact ⟨r, rfl, hs⟩

theorem updOrder_getOrderByHash_self {s : SwapOrderService} {h : String}
    {f : SwapOrderRec → SwapOrderRec} {o : SwapOrderRec}
    (hs : s.getOrderByHash h = some o) :
    (s.updOrder h f).getOrderByHash h = some (f o) := by
  obtain ⟨r, hm, hh⟩ := getOrderByHash_inv hs
  unfold updOrder
  simp only [hm, hh]
  unfold getOrderByHash
  simp only [mapGet_mapSet_self, Option.some_bind]
  exact heap_concat _ _

theorem updOrder_getOrderByHash_ne {s : SwapOrderService} {h k : String}
    {f : SwapOrderRec → SwapOrderRec} {o : SwapOrderRec}
    (hk : s.getOrderByHash k = some o) (hne : h ≠ k) :
    (s.updOrder h f).getOrderByHash k = some o := by
  obtain ⟨r, hm, hh⟩ := getOrderByHash_inv hk
  unfold updOrder
  rcases hm2 : mapGet s.orders h with _ | r2
  · simp only [hm2]
    exact hk
  · rcases hh2 : s.heap[r2]? with _ | o2
    · simp only [hm2, hh2]
      exact hk
    · simp only [hm2, hh2]
      unfold getOrderByHash
      simp only [mapGet_mapSet_ne _ _ _ _ hne, hm, Option.some_bind]
      exact heap_append hh _

theorem updOrder_getEvmOrderByHash {s : SwapOrderService} {h k : String}
    {f : SwapOrderRec → SwapOrderRec} {o : SwapOrderRec}
    (hk : s.getEvmOrderByHash k = some o) :
    (s.updOrder h f).getEvmOrderByHash k = some o := by
  obtain ⟨r, hm, hh⟩ := getEvmOrderByHash_inv hk
  unfold updOrder
  rcases hm2 : mapGet s.orders h with _ | r2
  · simp only [hm2]
    exact hk
  · rcases hh2 : s.heap[r2]? with _ | o2
    · simp only [hm2, hh2]
      exact hk
    · simp only [hm2, hh2]
      unfold getEvmOrderByHash
      simp only [hm, Option.some_bind]
      exact heap_append hh _

theorem addEvmSignature_getOrderByHash {s : SwapOrderService} {h sig : String}
    {now : Nat} {k : String} {o : SwapOrderRec}
    (hk : s.getOrderByHash k = some o) :
    (s.addEvmSignature h sig now).getOrderByHash k = some o := by
  obtain ⟨r, hm, hh⟩ := getOrderByHash_inv hk
  unfold addEvmSignature
  rcases hm2 : mapGet s.evmSwapOrders h with _ | r2
  · simp only [hm2]
    exact hk
  · rcases hh2 : s.heap[r2]? with _ | o2
    · simp only [hm2, hh2]
      exact hk
    · simp only [hm2, hh2]
      unfold getOrderByHash
      simp only [hm, Option.some_bind]
      exact heap_append hh _

theorem updateOrderStatus_snd (s : SwapOrderService) (h : String) :
    (s.updateOrderStatus h).2 = s := by
  unfold updateOrderStatus
  rcases s.getOrderByHash h with _ | o <;> rfl

theorem updOrder_userIntent {s : SwapOrderService} {h k : String}
    {f : SwapOrderRec → SwapOrderRec} {o : SwapOrderRec}
    (hf : ∀ x, (f x).userIntent = x.userIntent)
    (hk : s.getOrderByHash k = some o) :
    ((s.updOrder h f).getOrderByHash k).map SwapOrderRec.userIntent =
      some o.userIntent := by
  by_cases hkh : h = k
  · subst hkh
    rw [updOrder_getOrderByHash_self hk]
    simp [hf]
  · rw [updOrder_getOrderByHash_ne hk hkh]
    rfl

theorem addEvmSignature_orders (s : SwapOrderService) (h sig : String) (now : Nat) :
    (s.addEvmSignature h sig now).orders = s.orders := by
  unfold addEvmSignature
  rcases hx : mapGet s.evmSwapOrders h with _ | r
  · simp only [hx]
  · rcases hy : s.heap[r]? with _ | o <;> simp only [hx, hy]

theorem addEvmSignature_heap_get {s : SwapOrderService} (h sig : String) (now : Nat)
    {r : Nat} {o : SwapOrderRec} (hh : s.heap[r]? = some o) :
    (s.addEvmSignature h sig now).heap[r]? = some o := by
  unfold addEvmSignature
  rcases hx : mapGet s.evmSwapOrders h with _ | r2
  · simp only [hx]
    exact hh
  · rcases hy : s.heap[r2]? with _ | o2
    · simp only [hx, hy]
      exact hh
    · simp only [hx, hy]
      exact heap_append hh _

theorem getOrderByHash_set {s : SwapOrderService} {h : String} {r : Nat}
    {o : SwapOrderRec} (hmo : mapGet s.orders h = some r) (hh : s.heap[r]? = some o)
    (v : SwapOrderRec) :
    ({ s with heap := s.heap.set r v } : SwapOrderService).getOrderByHash h = some v := by
  unfold getOrderByHash
  simp only [hmo, Option.some_bind]
  exact heap_set_self hh v

theorem getEvmOrderByHash_set {s : SwapOrderService} {h : String} {r : Nat}
    {o : SwapOrderRec} (hmo : mapGet s.evmSwapOrders h = some r)
    (hh : s.heap[r]? = some o) (v : SwapOrderRec) :
    ({ s with heap := s.heap.set r v } : SwapOrderService).getEvmOrderByHash h = some v := by
  unfold getEvmOrderByHash
  simp only [hmo, Option.some_bind]
  exact heap_set_self hh v

theorem addEvmSignature_getEvmOrderByHash_self {s : SwapOrderService}
    {h sig : String} {now : Nat} {o : SwapOrderRec}
    (hs : s.getEvmOrderByHash h = some o) :
    (s.addEvmSignature h sig now).getEvmOrderByHash h =
      some { o with signature := some sig, updatedAt := now } := by
  obtain ⟨r, hm, hh⟩ := getEvmOrderByHash_inv hs
  unfold addEvmSignature
  simp only [hm, hh]
  unfold getEvmOrderByHash
  simp only [mapGet_mapSet_self, Option.some_bind]
  exact heap_concat _ _

end SwapOrderService

/-- Reduction of revealSecretBody when the order is present, the secret
matches, and an escrow reference is missing on either side: the
ESCROW_NOT_DEPLOYED error, no adapter call, store unchanged. -/
theorem revealBody_escrow_missing (rs : RelayerService) (keccak : String → String)
    (env : RevealEnv) {s : SwapOrderService} {h : String} (secret : String) (now : Nat)
    {o : SwapOrderRec} (ho : s.getOrderByHash h = some o)
    (hsec : keccak secret = o.userIntent.hashLock)
    (hmiss : o.escrowSrcTxHash = none ∨ o.escrowDstTxHash = none) :
    revealSecretBody rs keccak env s h secret now =
      ⟨.error .ESCROW_NOT_DEPLOYED, s, now, [], [(now, s)]⟩ := by
  unfold revealSecretBody
  simp only [ho, hsec, ne_eq, not_true_eq_false, if_false, if_pos hmiss]

/-! ### Registry lemmas -/

theorem mapSet_keys (m : List (Nat × EvmResolverModel)) (k : Nat) (v : EvmResolverModel) :
    (mapSet m k v).map Prod.fst = keySet (m.map Prod.fst) k := by
  induction m with
  | nil => simp [mapSet, keySet]
  | cons hd tl ih =>
      obtain ⟨k2, v2⟩ := hd
      by_cases h : k2 = k
      · subst h
        simp [mapSet, keySet]
      · simp only [mapSet, if_neg h, List.map_cons, ih, keySet]
        have h2 : ¬k = k2 := fun hh => h hh.symm
        by_cases hm : k ∈ tl.map Prod.fst
        · simp [hm, h2]
        · simp [hm, h2]

theorem applyRegistryOps_chains (ops : List RegistryOp) :
    ∀ rs : RelayerService,
      (applyRegistryOps rs ops).getSupportedChains =
        registryChains rs.getSupportedChains ops := by
  induction ops with
  | nil => intro rs; rfl
  | cons op rest ih =>
      intro rs
      cases op with
      | addResolver c r =>
          simp only [applyRegistryOps, registryChains, ih]
          congr 1
          simp only [RelayerService.getSupportedChains, RelayerService.addResolver]
          exact mapSet_keys _ _ _
      | setSuiResolver =>
          simp only [applyRegistryOps, registryChains, ih]
          rfl

theorem registryChains_not_mem (ops : List RegistryOp) :
    ∀ acc : List Nat, 101 ∉ acc →
      (∀ op ∈ ops, op.chainRegistered ≠ some 101) →
      101 ∉ registryChains acc ops := by
  induction ops with
  | nil => intro acc hacc _; exact hacc
  | cons op rest ih =>
      intro acc hacc hops
      cases op with
      | addResolver c r =>
          have hc : c ≠ 101 := by
            intro hc
            exact hops _ (List.mem_cons_self _ _) (by simp [RegistryOp.chainRegistered, hc])
          refine ih _ ?_ fun op hop => hops op (List.mem_cons_of_mem _ hop)
          unfold keySet
          by_cases hmem : c ∈ acc
          · simpa [hmem] using hacc
          · simp only [if_neg hmem, List.mem_append, List.mem_singleton]
            rintro (h1 | h1)
            · exact hacc h1
            · exact hc h1.symm
      | setSuiResolver =>
          exact ih _ hacc fun op hop => hops op (List.mem_cons_of_mem _ hop)

/-- Along a successful executeSuiSwap run of an order that starts with no
escrow transaction references, every intermediate state whose clock has not
reached a side's private-withdrawal time still lacks that side's escrow
transaction reference (and the stored intent is unchanged): the escrow tx
hashes are only recorded after the corresponding waitUntilTime. -/
theorem executeSuiSwap_window_refs
    (rs : RelayerService) (env : SuiExecEnv) (s0 : SwapOrderService)
    (intent : UserIntent) (order : SwapOrderRec) (c0 : Nat)
    (amt : Nat) (ts oid : String) (dAt1 wAt : Nat) (res : EvmResolverModel)
    (imm : Immutables) (tx addr : String) (dAt2 : Nat) (o0 : SwapOrderRec)
    (hp : parseUnits intent.tokenAmount
      (if intent.srcChainAsset = "0x2::sui::SUI" then 9 else 6) = some amt)
    (h1 : env.suiDeploySrc = .ok (ts, oid, dAt1, wAt))
    (hr : rs.getResolver order.userIntent.dstChainId = .ok res)
    (hi : createDstImmutables order.userIntent order res.resolverAddress dAt1 = some imm)
    (h2 : env.evmDeployDst = .ok (tx, addr, dAt2))
    (hs : s0.getOrderByHash order.orderHash = some o0)
    (hsrc0 : o0.escrowSrcTxHash = none) (hdst0 : o0.escrowDstTxHash = none) :
    ∀ c s, (c, s) ∈ (executeSuiSwap rs env s0 intent order c0).snaps →
      ∃ o, s.getOrderByHash order.orderHash = some o ∧
        o.userIntent = o0.userIntent ∧
        (c < wAt → o.escrowSrcTxHash = none) ∧
        (c < imm.timeLocks.dstPrivateWithdrawal dAt2 → o.escrowDstTxHash = none) := by
  intro c s hmem
  simp only [executeSuiSwap, hp, h1, hr, hi, h2, SwapOrderService.addDeployedAt,
    SwapOrderService.addEscrowDstTxHash, SwapOrderService.addEvmEscrowAddress,
    SwapOrderService.addEscrowSrcTxHash, SwapOrderService.addSuiEscrowObjectId,
    List.mem_cons, List.not_mem_nil, or_false] at hmem
  have g1 := SwapOrderService.updOrder_getOrderByHash_self
    (f := fun o => { o with deployedAt := some dAt1, updatedAt := c0 }) hs
  have g2 := SwapOrderService.updOrder_getOrderByHash_self
    (f := fun o => { o with deployedAt := some dAt2, updatedAt := c0 }) g1
  have g3 := SwapOrderService.updOrder_getOrderByHash_self
    (f := fun o =>
      { o with escrowDstTxHash := some tx,
               updatedAt := max c0 (imm.timeLocks.dstPrivateWithdrawal dAt2) }) g2
  have g4 := SwapOrderService.updOrder_getOrderByHash_self
    (f := fun o =>
      { o with evmEscrowAddress := some addr,
               updatedAt := max c0 (imm.timeLocks.dstPrivateWithdrawal dAt2) }) g3
  have g5 := SwapOrderService.updOrder_getOrderByHash_self
    (f := fun o =>
      { o with escrowSrcTxHash := some ts,
               updatedAt := max (max c0 (imm.timeLocks.dstPrivateWithdrawal dAt2)) wAt }) g4
  have g6 := SwapOrderService.updOrder_getOrderByHash_self
    (f := fun o =>
      { o with suiEscrowObjectId := some oid,
               updatedAt := max (max c0 (imm.timeLocks.dstPrivateWithdrawal dAt2)) wAt }) g5
  rcases hmem with hx | hx | hx | hx | hx | hx | hx <;>
    rw [Prod.mk.injEq] at hx <;> obtain ⟨hc, hs2⟩ := hx <;> subst hc <;> subst hs2
  · exact ⟨o0, hs, rfl, fun _ => hsrc0, fun _ => hdst0⟩
  · exact ⟨_, g1, rfl, fun _ => hsrc0, fun _ => hdst0⟩
  · exact ⟨_, g2, rfl, fun _ => hsrc0, fun _ => hdst0⟩
  · exact ⟨_, g3, rfl, fun _ => hsrc0,
      fun hlt => absurd hlt (not_lt.2 (le_max_right _ _))⟩
  · exact ⟨_, g4, rfl, fun _ => hsrc0,
      fun hlt => absurd hlt (not_lt.2 (le_max_right _ _))⟩
  · exact ⟨_, g5, rfl,
      fun hlt => absurd hlt (not_lt.2 (le_max_right _ _)),
      fun hlt => absurd hlt (not_lt.2 (le_trans (le_max_right _ _) (le_max_left _ _)))⟩
  · exact ⟨_, g6, rfl,
      fun hlt => absurd hlt (not_lt.2 (le_max_right _ _)),
      fun hlt => absurd hlt (not_lt.2 (le_trans (le_max_right _ _) (le_max_left _ _)))⟩

/-- Along a successful executeEvmSwapOrder run of an order that starts with
no escrow transaction references (stored under the same heap slot in both
maps, as createEvmSwapOrder leaves it), every intermediate state whose clock
has not reached a side's private-withdrawal time still lacks that side's
escrow transaction reference, and the stored intent is unchanged. -/
theorem executeEvmSwapOrder_window_refs
    (rs : RelayerService) (env : EvmExecEnv) (s0 : SwapOrderService)
    (h sig : String) (c0 : Nat) (r : Nat) (order : SwapOrderRec) (so : SdkOrder)
    (resv : EvmResolverModel) (stx addr : String) (dAt : Nat)
    (ts2 oid : String) (dstWt : Nat)
    (hm : mapGet s0.evmSwapOrders h = some r)
    (hh : s0.heap[r]? = some order)
    (hsame : mapGet s0.orders h = some r)
    (hso : order.sdkOrder = some so)
    (hres : rs.getResolver order.userIntent.srcChainId = .ok resv)
    (h1 : env.deploySrc = .ok (stx, addr, dAt))
    (h2 : env.suiDeployDst = .ok (ts2, oid, dstWt))
    (hsrc0 : order.escrowSrcTxHash = none) (hdst0 : order.escrowDstTxHash = none) :
    ∀ c s, (c, s) ∈ (executeEvmSwapOrder rs env s0 h sig c0).snaps →
      ∃ o, s.getOrderByHash h = some o ∧
        o.userIntent = order.userIntent ∧
        (c < so.timeLocks.srcPrivateWithdrawal dAt → o.escrowSrcTxHash = none) ∧
        (c < dstWt → o.escrowDstTxHash = none) := by
  intro c s hmem
  have ho0 : s0.getOrderByHash h = some order := by
    unfold SwapOrderService.getOrderByHash
    rw [hsame]
    simpa using hh
  by_cases hsig : order.signature = none
  · simp only [executeEvmSwapOrder, hm, hh, hres, hso, h1, h2, if_pos hsig,
      SwapOrderService.addEvmEscrowAddress, SwapOrderService.addDeployedAt,
      SwapOrderService.addEscrowDstTxHash, SwapOrderService.addSuiEscrowObjectId,
      SwapOrderService.addEscrowSrcTxHash,
      List.mem_cons, List.not_mem_nil, or_false] at hmem
    have hs1 : (s0.addEvmSignature h sig c0).getOrderByHash h = some order :=
      SwapOrderService.addEvmSignature_getOrderByHash ho0
    have hs1o : (s0.addEvmSignature h sig c0).orders = s0.orders :=
      SwapOrderService.addEvmSignature_orders s0 h sig c0
    have hs1h : (s0.addEvmSignature h sig c0).heap[r]? = some order :=
      SwapOrderService.addEvmSignature_heap_get h sig c0 hh
    have hs2 := SwapOrderService.getOrderByHash_set
      (s := s0.addEvmSignature h sig c0)
      (by rw [hs1o]; exact hsame) hs1h { order with signature := some sig }
    rw [hso] at hs2
    have g3 := SwapOrderService.updOrder_getOrderByHash_self
      (f := fun o => { o with evmEscrowAddress := some addr, updatedAt := c0 }) hs2
    have g4 := SwapOrderService.updOrder_getOrderByHash_self
      (f := fun o => { o with deployedAt := some dAt, updatedAt := c0 }) g3
    have g5 := SwapOrderService.updOrder_getOrderByHash_self
      (f := fun o =>
        { o with escrowDstTxHash := some ts2, updatedAt := max c0 dstWt }) g4
    have g6 := SwapOrderService.updOrder_getOrderByHash_self
      (f := fun o =>
        { o with suiEscrowObjectId := some oid, updatedAt := max c0 dstWt }) g5
    have g7 := SwapOrderService.updOrder_getOrderByHash_self
      (f := fun o =>
        { o with escrowSrcTxHash := some stx,
                 updatedAt := max (max c0 dstWt)
                   (so.timeLocks.srcPrivateWithdrawal dAt) }) g6
    rcases hmem with hx | hx | hx | hx | hx | hx | hx | hx <;>
      rw [Prod.mk.injEq] at hx <;> obtain ⟨hc, hs9⟩ := hx <;> subst hc <;> subst hs9
    · exact ⟨order, ho0, rfl, fun _ => hsrc0, fun _ => hdst0⟩
    · exact ⟨order, hs1, rfl, fun _ => hsrc0, fun _ => hdst0⟩
    · exact ⟨_, hs2, rfl, fun _ => hsrc0, fun _ => hdst0⟩
    · exact ⟨_, g3, rfl, fun _ => hsrc0, fun _ => hdst0⟩
    · exact ⟨_, g4, rfl, fun _ => hsrc0, fun _ => hdst0⟩
    · exact ⟨_, g5, rfl, fun _ => hsrc0,
        fun hlt => absurd hlt (not_lt.2 (le_max_right _ _))⟩
    · exact ⟨_, g6, rfl, fun _ => hsrc0,
        fun hlt => absurd hlt (not_lt.2 (le_max_right _ _))⟩
    · exact ⟨_, g7, rfl,
        fun hlt => absurd hlt (not_lt.2 (le_max_right _ _)),
        fun hlt => absurd hlt
          (not_lt.2 (le_trans (le_max_right _ _) (le_max_left _ _)))⟩
  · simp only [executeEvmSwapOrder, hm, hh, hres, hso, h1, h2, if_neg hsig,
      SwapOrderService.addEvmEscrowAddress, SwapOrderService.addDeployedAt,
      SwapOrderService.addEscrowDstTxHash, SwapOrderService.addSuiEscrowObjectId,
      SwapOrderService.addEscrowSrcTxHash,
      List.mem_cons, List.not_mem_nil, or_false] at hmem
    have hs2 := SwapOrderService.getOrderByHash_set (s := s0) hsame hh
      { order with signature := some sig }
    rw [hso] at hs2
    have g3 := SwapOrderService.updOrder_getOrderByHash_self
      (f := fun o => { o with evmEscrowAddress := some addr, updatedAt := c0 }) hs2
    have g4 := SwapOrderService.updOrder_getOrderByHash_self
      (f := fun o => { o with deployedAt := some dAt, updatedAt := c0 }) g3
    have g5 := SwapOrderService.updOrder_getOrderByHash_self
      (f := fun o =>
        { o with escrowDstTxHash := some ts2, updatedAt := max c0 dstWt }) g4
    have g6 := SwapOrderService.updOrder_getOrderByHash_self
      (f := fun o =>
        { o with suiEscrowObjectId := some oid, updatedAt := max c0 dstWt }) g5
    have g7 := SwapOrderService.updOrder_getOrderByHash_self
      (f := fun o =>
        { o with escrowSrcTxHash := some stx,
                 updatedAt := max (max c0 dstWt)
                   (so.timeLocks.srcPrivateWithdrawal dAt) }) g6
    rcases hmem with hx | hx | hx | hx | hx | hx | hx | hx <;>
      rw [Prod.mk.injEq] at hx <;> obtain ⟨hc, hs9⟩ := hx <;> subst hc <;> subst hs9
    · exact ⟨order, ho0, rfl, fun _ => hsrc0, fun _ => hdst0⟩
    · exact ⟨order, ho0, rfl, fun _ => hsrc0, fun _ => hdst0⟩
    · exact ⟨_, hs2, rfl, fun _ => hsrc0, fun _ => hdst0⟩
    · exact ⟨_, g3, rfl, fun _ => hsrc0, fun _ => hdst0⟩
    · exact ⟨_, g4, rfl, fun _ => hsrc0, fun _ => hdst0⟩
    · exact ⟨_, g5, rfl, fun _ => hsrc0,
        fun hlt => absurd hlt (not_lt.2 (le_max_right _ _))⟩
    · exact ⟨_, g6, rfl, fun _ => hsrc0,
        fun hlt => absurd hlt (not_lt.2 (le_max_right _ _))⟩
    · exact ⟨_, g7, rfl,
        fun hlt => absurd hlt (not_lt.2 (le_max_right _ _)),
        fun hlt => absurd hlt
          (not_lt.2 (le_trans (le_max_right _ _) (le_max_left _ _)))⟩

/-! ### Claim theorems -/

/-- Concrete intent used by several witnesses. -/
def c3Intent : UserIntent :=
  { srcChainId := 101, dstChainId := 42161, userAddress := "0xU",
    tokenAmount := "1", srcChainAsset := "0x2::sui::SUI", dstChainAsset := "0xT",
    hashLock := "HL", receiver := "0xRecv" }

/-- Concrete stored order with no escrow references yet. -/
def c3Rec : SwapOrderRec :=
  { orderHash := "0xH", userIntent := c3Intent, createdAt := 1, updatedAt := 1 }

/-- Concrete store holding c3Rec. -/
def c3Store : SwapOrderService :=
  { heap := [c3Rec], orders := [("0xH", 0)] }

/-- C3 (confirmed): revealSecret checks its preconditions in order with
first failure winning: a missing order fails with ORDER_NOT_FOUND; else a
secret whose keccak256 differs from the order's hash-lock fails with
INVALID_SECRET; else a missing escrow transaction reference on either side
fails with ESCROW_NOT_DEPLOYED.  In each failure case no withdraw adapter
call is made and the store is returned unchanged.  (The catch block of
revealSecret then rewraps the thrown SwapError as RELAYER_REVEAL_FAILED
without further effects; see revealSecret.) -/
theorem C3_revealSecret_precondition_order
    (rs : RelayerService) (keccak : String → String) (env : RevealEnv)
    (s0 : SwapOrderService) (h secret : String) (now : Nat) :
    (s0.getOrderByHash h = none →
      revealSecretBody rs keccak env s0 h secret now =
        ⟨.error .ORDER_NOT_FOUND, s0, now, [], [(now, s0)]⟩) ∧
    (∀ o, s0.getOrderByHash h = some o →
      keccak secret ≠ o.userIntent.hashLock →
      revealSecretBody rs keccak env s0 h secret now =
        ⟨.error .INVALID_SECRET, s0, now, [], [(now, s0)]⟩) ∧
    (∀ o, s0.getOrderByHash h = some o →
      keccak secret = o.userIntent.hashLock →
      (o.escrowSrcTxHash = none ∨ o.escrowDstTxHash = none) →
      revealSecretBody rs keccak env s0 h secret now =
        ⟨.error .ESCROW_NOT_DEPLOYED, s0, now, [], [(now, s0)]⟩) := by
  refine ⟨fun hnone => ?_, fun o ho hne => ?_, fun o ho heq hmiss => ?_⟩
  · unfold revealSecretBody
    simp only [hnone]
  · unfold revealSecretBody
    simp only [ho, if_pos hne]
  · unfold revealSecretBody
    simp only [ho, heq, ne_eq, not_true_eq_false, if_false, if_pos hmiss]

/-- Witness for C3 at concrete inputs: each of the three failure cases is
exercised on an explicit store. -/
theorem C3_witness :
    (revealSecretBody { resolvers := [], suiResolver := true } (fun _ => "HL")
        ⟨.ok "wtx", .ok "wtx2"⟩ { } "0xH" "s" 7 =
      ⟨.error .ORDER_NOT_FOUND, { }, 7, [], [(7, { })]⟩) ∧
    (revealSecretBody { resolvers := [], suiResolver := true } (fun _ => "BAD")
        ⟨.ok "wtx", .ok "wtx2"⟩ c3Store "0xH" "s" 7 =
      ⟨.error .INVALID_SECRET, c3Store, 7, [], [(7, c3Store)]⟩) ∧
    (revealSecretBody { resolvers := [], suiResolver := true } (fun _ => "HL")
        ⟨.ok "wtx", .ok "wtx2"⟩ c3Store "0xH" "s" 7 =
      ⟨.error .ESCROW_NOT_DEPLOYED, c3Store, 7, [], [(7, c3Store)]⟩) := by
  refine ⟨?_, ?_, ?_⟩
  · exact (C3_revealSecret_precondition_order _ _ _ _ _ _ _).1 (by decide)
  · exact (C3_revealSecret_precondition_order _ _ _ _ _ _ _).2.1 c3Rec (by decide) (by decide)
  · exact (C3_revealSecret_precondition_order _ _ _ _ _ _ _).2.2 c3Rec (by decide) (by decide)
      (by decide)

/-- C10 (confirmed): the supported-chains list always equals the key set of
the EVM resolver map as built by addResolver; setSuiResolver never changes
it; starting from a fresh service, any operation sequence that never calls
addResolver with chain id 101 leaves 101 outside the supported list; and the
service built by create supports exactly chain 42161, does not list 101, yet
getChainResolver resolves 101 to the Sui resolver wrapper. -/
theorem C10_supported_chains_registry :
    (∀ (rs : RelayerService) (c : Nat) (r : EvmResolverModel),
      (rs.addResolver c r).getSupportedChains = keySet rs.getSupportedChains c) ∧
    (∀ rs : RelayerService,
      rs.setSuiResolver.getSupportedChains = rs.getSupportedChains) ∧
    (∀ (rs : RelayerService) (ops : List RegistryOp),
      (applyRegistryOps rs ops).getSupportedChains =
        registryChains rs.getSupportedChains ops) ∧
    (∀ ops : List RegistryOp,
      (∀ op ∈ ops, op.chainRegistered ≠ some 101) →
      101 ∉ (applyRegistryOps { } ops).getSupportedChains) ∧
    (∀ eth : EvmResolverModel,
      (RelayerService.create eth).getSupportedChains = [42161] ∧
      101 ∉ (RelayerService.create eth).getSupportedChains ∧
      (RelayerService.create eth).getChainResolver 101 = .ok .sui) := by
  refine ⟨?_, ?_, ?_, ?_, ?_⟩
  · intro rs c r
    simp only [RelayerService.getSupportedChains, RelayerService.addResolver]
    exact mapSet_keys _ _ _
  · intro rs
    rfl
  · intro rs ops
    exact applyRegistryOps_chains ops rs
  · intro ops hops
    rw [applyRegistryOps_chains]
    exact registryChains_not_mem ops _ (by simp [RelayerService.getSupportedChains]) hops
  · intro eth
    refine ⟨rfl, ?_, rfl⟩
    rw [show (RelayerService.create eth).getSupportedChains = [42161] from rfl]
    decide

/-- Witness for C10 at a concrete operation sequence and resolver. -/
theorem C10_witness :
    101 ∉ (applyRegistryOps { }
      [RegistryOp.addResolver 42161 ⟨42161, "0xR", "0xF", "0xL"⟩,
       RegistryOp.setSuiResolver]).getSupportedChains :=
  (C10_supported_chains_registry).2.2.2.1 _ (by decide)

/-- C4 (confirmed): before a side's withdrawal time is reached, a
revealSecret call fails with ESCROW_NOT_DEPLOYED without making any
withdraw adapter call and without touching the store.  The mechanism: the
execute pipelines record a side's escrow transaction reference only after
waiting out that side's private-withdrawal time, and revealSecret requires
both references before it issues any withdraw, so the escrow-reference
pre-check subsumes the timing pre-check at every intermediate state of
executeSuiSwap and of executeEvmSwapOrder. -/
theorem C4_reveal_before_window_no_withdraw :
    (∀ (rs rs2 : RelayerService) (keccak : String → String) (renv : RevealEnv)
        (env : SuiExecEnv) (s0 : SwapOrderService) (intent : UserIntent)
        (order : SwapOrderRec) (c0 amt : Nat) (ts oid : String) (dAt1 wAt : Nat)
        (res : EvmResolverModel) (imm : Immutables) (tx addr : String) (dAt2 : Nat)
        (o0 : SwapOrderRec) (secret : String),
      parseUnits intent.tokenAmount
        (if intent.srcChainAsset = "0x2::sui::SUI" then 9 else 6) = some amt →
      env.suiDeploySrc = .ok (ts, oid, dAt1, wAt) →
      rs.getResolver order.userIntent.dstChainId = .ok res →
      createDstImmutables order.userIntent order res.resolverAddress dAt1 = some imm →
      env.evmDeployDst = .ok (tx, addr, dAt2) →
      s0.getOrderByHash order.orderHash = some o0 →
      o0.escrowSrcTxHash = none → o0.escrowDstTxHash = none →
      keccak secret = o0.userIntent.hashLock →
      ∀ c s, (c, s) ∈ (executeSuiSwap rs env s0 intent order c0).snaps →
        (c < wAt ∨ c < imm.timeLocks.dstPrivateWithdrawal dAt2) →
        revealSecretBody rs2 keccak renv s order.orderHash secret c =
          ⟨.error .ESCROW_NOT_DEPLOYED, s, c, [], [(c, s)]⟩) ∧
    (∀ (rs rs2 : RelayerService) (keccak : String → String) (renv : RevealEnv)
        (env : EvmExecEnv) (s0 : SwapOrderService) (h sig : String) (c0 r : Nat)
        (order : SwapOrderRec) (so : SdkOrder) (resv : EvmResolverModel)
        (stx addr : String) (dAt : Nat) (ts2 oid : String) (dstWt : Nat)
        (secret : String),
      mapGet s0.evmSwapOrders h = some r →
      s0.heap[r]? = some order →
      mapGet s0.orders h = some r →
      order.sdkOrder = some so →
      rs.getResolver order.userIntent.srcChainId = .ok resv →
      env.deploySrc = .ok (stx, addr, dAt) →
      env.suiDeployDst = .ok (ts2, oid, dstWt) →
      order.escrowSrcTxHash = none → order.escrowDstTxHash = none →
      keccak secret = order.userIntent.hashLock →
      ∀ c s, (c, s) ∈ (executeEvmSwapOrder rs env s0 h sig c0).snaps →
        (c < so.timeLocks.srcPrivateWithdrawal dAt ∨ c < dstWt) →
        revealSecretBody rs2 keccak renv s h secret c =
          ⟨.error .ESCROW_NOT_DEPLOYED, s, c, [], [(c, s)]⟩) := by
  constructor
  · intro rs rs2 keccak renv env s0 intent order c0 amt ts oid dAt1 wAt res imm tx
      addr dAt2 o0 secret hp h1 hr hi h2 hs hsrc0 hdst0 hsec c s hmem hwindow
    obtain ⟨o, hso2, hui, hsrcc, hdstc⟩ :=
      executeSuiSwap_window_refs rs env s0 intent order c0 amt ts oid dAt1 wAt res
        imm tx addr dAt2 o0 hp h1 hr hi h2 hs hsrc0 hdst0 c s hmem
    refine revealBody_escrow_missing rs2 keccak renv secret c hso2
      (by rw [hui]; exact hsec) ?_
    rcases hwindow with hlt | hlt
    · exact .inl (hsrcc hlt)
    · exact .inr (hdstc hlt)
  · intro rs rs2 keccak renv env s0 h sig c0 r order so resv stx addr dAt ts2 oid
      dstWt secret hm hh hsame hso hres h1 h2 hsrc0 hdst0 hsec c s hmem hwindow
    obtain ⟨o, hso2, hui, hsrcc, hdstc⟩ :=
      executeEvmSwapOrder_window_refs rs env s0 h sig c0 r order so resv stx addr
        dAt ts2 oid dstWt hm hh hsame hso hres h1 h2 hsrc0 hdst0 c s hmem
    refine revealBody_escrow_missing rs2 keccak renv secret c hso2
      (by rw [hui]; exact hsec) ?_
    rcases hwindow with hlt | hlt
    · exact .inl (hsrcc hlt)
    · exact .inr (hdstc hlt)

/-- Registered Arbitrum resolver used by concrete runs. -/
def arbResolver : EvmResolverModel :=
  { chainId := 42161,
    resolverAddress := "0xaaaaaaaaaaaaaaaaaaaaaaaaaaaaaaaaaaaaaaaa",
    escrowFactory := "0xcccccccccccccccccccccccccccccccccccccccc",
    limitOrder := "0xdddddddddddddddddddddddddddddddddddddddd" }

/-- RelayerService with the Arbitrum resolver and the Sui resolver, as
create() builds it. -/
def demoRelayer : RelayerService := RelayerService.create arbResolver

/-- Fully deployed concrete order (both escrow transaction references
present) on the Sui-to-EVM pair. -/
def c1Rec : SwapOrderRec :=
  { orderHash := "0xH", userIntent := c3Intent,
    escrowSrcTxHash := some "stx", escrowDstTxHash := some "dtx",
    suiEscrowObjectId := some "0xobj", deployedAt := some 500,
    createdAt := 1, updatedAt := 1 }

/-- Store holding the deployed order c1Rec. -/
def c1Store : SwapOrderService :=
  { heap := [c1Rec], orders := [("0xH", 0)] }

/-- C1 (code bug): on a fully deployed order with a secret matching the
hash-lock, revealSecret performs the SOURCE withdrawal first: the adapter
call list is withdrawSrc before withdrawDst, and after the first store write
the source withdraw transaction reference is recorded while the destination
one is still absent.  The spec (and the repository's own protocol
documentation, steps 7 and 8 of the 1inch flow) requires the destination
withdrawal to come first. -/
theorem C1_reveal_withdraws_source_first :
    (revealSecretBody demoRelayer (fun _ => "HL") ⟨.ok "swtx", .ok "dwtx"⟩
        c1Store "0xH" "sec" 600).res = .ok () ∧
    (revealSecretBody demoRelayer (fun _ => "HL") ⟨.ok "swtx", .ok "dwtx"⟩
        c1Store "0xH" "sec" 600).calls = [.withdrawSrc, .withdrawDst] ∧
    ((revealSecretBody demoRelayer (fun _ => "HL") ⟨.ok "swtx", .ok "dwtx"⟩
        c1Store "0xH" "sec" 600).snaps.map fun p =>
          ((p.2.getOrderByHash "0xH").map SwapOrderRec.escrowSrcWithdrawTxHash,
           (p.2.getOrderByHash "0xH").map SwapOrderRec.escrowDstWithdrawTxHash)) =
      [(some none, some none),
       (some (some "swtx"), some none),
       (some (some "swtx"), some (some "dwtx"))] := by
  refine ⟨by decide, by decide, by decide⟩

/-- Intent whose token amount is an integral number of SUI base units. -/
def c9Intent : UserIntent :=
  { srcChainId := 101, dstChainId := 42161, userAddress := "0xU",
    tokenAmount := "2000000000", srcChainAsset := "0x2::sui::SUI",
    dstChainAsset := "0xT", hashLock := "HL", receiver := "0xRecv" }

/-- C9 counterexample: newSuiSwapOrder mutates the accepted intent's
tokenAmount — the order it creates (and stores) carries tokenAmount 2, not
the submitted 2000000000, so the intent is not immutable. -/
theorem C9_counterexample_intent_mutated :
    ((newSuiSwapOrder { } c9Intent "0xH9" 5).1.userIntent.tokenAmount = "2") ∧
    ("2" ≠ "2000000000") ∧
    (((newSuiSwapOrder { } c9Intent "0xH9" 5).2.getOrderByHash "0xH9").map
        (fun o => o.userIntent.tokenAmount) = some "2") := by
  refine ⟨by decide, by decide, by decide⟩

/-- C9 amended (proved): an accepted intent is immutable except that
newSuiSwapOrder overwrites tokenAmount with the decimal-rescaled amount
(division by 10^9 for native SUI, 10^6 otherwise) before creating and
storing the order; every field-update operation of the store leaves the
stored order's userIntent (amount, assets, addresses and hash-lock)
unchanged. -/
theorem C9_amended_intent_rescaled_only :
    (∀ (s0 : SwapOrderService) (intent : UserIntent) (fh : String) (now : Nat),
      (newSuiSwapOrder s0 intent fh now).1.userIntent =
        { intent with tokenAmount :=
            if intent.srcChainAsset = "0x2::sui::SUI"
            then jsDivPow10 intent.tokenAmount 9
            else jsDivPow10 intent.tokenAmount 6 } ∧
      (newSuiSwapOrder s0 intent fh now).2.getOrderByHash fh =
        some (newSuiSwapOrder s0 intent fh now).1) ∧
    (∀ (s : SwapOrderService) (h v : String) (now : Nat) (n : Nat) (k : String)
        (o : SwapOrderRec), s.getOrderByHash k = some o →
      (((s.addSecret h v now).getOrderByHash k).map SwapOrderRec.userIntent =
        some o.userIntent) ∧
      (((s.addEscrowSrcTxHash h v now).getOrderByHash k).map SwapOrderRec.userIntent =
        some o.userIntent) ∧
      (((s.addEscrowDstTxHash h v now).getOrderByHash k).map SwapOrderRec.userIntent =
        some o.userIntent) ∧
      (((s.addSuiEscrowObjectId h v now).getOrderByHash k).map SwapOrderRec.userIntent =
        some o.userIntent) ∧
      (((s.addEscrowSrcWithdrawTxHash h v now).getOrderByHash k).map SwapOrderRec.userIntent =
        some o.userIntent) ∧
      (((s.addEscrowDstWithdrawTxHash h v now).getOrderByHash k).map SwapOrderRec.userIntent =
        some o.userIntent) ∧
      (((s.addDeployedAt h n now).getOrderByHash k).map SwapOrderRec.userIntent =
        some o.userIntent) ∧
      (((s.addEvmEscrowAddress h v now).getOrderByHash k).map SwapOrderRec.userIntent =
        some o.userIntent) ∧
      (((s.addEvmSignature h v now).getOrderByHash k).map SwapOrderRec.userIntent =
        some o.userIntent)) := by
  constructor
  · intro s0 intent fh now
    constructor
    · rfl
    · show (SwapOrderService.createSwapOrder s0 _ fh now).2.getOrderByHash fh = _
      unfold SwapOrderService.createSwapOrder SwapOrderService.getOrderByHash
      simp only [mapGet_mapSet_self, Option.some_bind]
      exact heap_concat _ _
  · intro s h v now n k o hk
    refine ⟨SwapOrderService.updOrder_userIntent (fun x => rfl) hk,
            SwapOrderService.updOrder_userIntent (fun x => rfl) hk,
            SwapOrderService.updOrder_userIntent (fun x => rfl) hk,
            SwapOrderService.updOrder_userIntent (fun x => rfl) hk,
            SwapOrderService.updOrder_userIntent (fun x => rfl) hk,
            SwapOrderService.updOrder_userIntent (fun x => rfl) hk,
            SwapOrderService.updOrder_userIntent (fun x => rfl) hk,
            SwapOrderService.updOrder_userIntent (fun x => rfl) hk, ?_⟩
    rw [SwapOrderService.addEvmSignature_getOrderByHash hk]
    rfl

/-- Witness for the C9 amended theorem at concrete inputs. -/
theorem C9_amended_witness :
    ((newSuiSwapOrder { } c9Intent "0xH9" 5).1.userIntent =
      { c9Intent with tokenAmount := jsDivPow10 "2000000000" 9 }) ∧
    (((c3Store.addSecret "0xH" "t" 3).getOrderByHash "0xH").map
        SwapOrderRec.userIntent = some c3Rec.userIntent) := by
  constructor
  · have h := ((C9_amended_intent_rescaled_only).1 { } c9Intent "0xH9" 5).1
    simpa using h
  · exact ((C9_amended_intent_rescaled_only).2 c3Store "0xH" "t" 3 0 "0xH" c3Rec
      (by decide)).1

/-- Intent with well-formed addresses and hash-lock on the Sui-to-EVM pair. -/
def c8Intent : UserIntent :=
  { srcChainId := 101, dstChainId := 42161, userAddress := "0xU",
    tokenAmount := "1", srcChainAsset := "0x2::sui::SUI",
    dstChainAsset := "0xbbbbbbbbbbbbbbbbbbbbbbbbbbbbbbbbbbbbbbbb",
    hashLock := "0x1111111111111111111111111111111111111111111111111111111111111111",
    receiver := "0xeeeeeeeeeeeeeeeeeeeeeeeeeeeeeeeeeeeeeeee" }

/-- Fresh stored order for the c8 run. -/
def c8Rec : SwapOrderRec :=
  { orderHash := "0xH8", userIntent := c8Intent, createdAt := 1, updatedAt := 1 }

/-- Store holding c8Rec. -/
def c8Store : SwapOrderService :=
  { heap := [c8Rec], orders := [("0xH8", 0)] }

/-- Adapter results for the c8 run: the Sui source escrow confirms at 1000,
the EVM destination escrow at 2000. -/
def c8Env : SuiExecEnv :=
  { suiDeploySrc := .ok ("suitx", "0xobj8", 1000, 1100),
    evmDeployDst := .ok ("evmtx", "0xesc8", 2000) }

/-- C8 counterexample: after a successful executeSuiSwap in which the
source escrow confirmed at 1000 and the destination escrow at 2000, the
order holds a single deployedAt field whose value is 2000 — the source-side
deployment timestamp 1000 was overwritten and is no longer retrievable, so
the order does not keep a separate deployedAt per chain side. -/
theorem C8_counterexample_deployedAt_overwritten :
    ((executeSuiSwap demoRelayer c8Env c8Store c8Intent c8Rec 0).res = .ok ()) ∧
    (((executeSuiSwap demoRelayer c8Env c8Store c8Intent c8Rec 0).store.getOrderByHash
        "0xH8").map SwapOrderRec.deployedAt = some (some 2000)) ∧
    (((executeSuiSwap demoRelayer c8Env c8Store c8Intent c8Rec 0).store.getOrderByHash
        "0xH8").map SwapOrderRec.deployedAt ≠ some (some 1000)) := by
  refine ⟨by decide, by decide, by decide⟩

/-- C8 amended (proved): the order record keeps a single deployedAt field;
executeSuiSwap records the source-side timestamp and then overwrites it with
the destination-side one, so after a successful execute the stored order
carries exactly the destination-side deployment timestamp together with the
escrow references, and it is strictly positive whenever that timestamp is. -/
theorem C8_amended_final_deployedAt_is_destination
    (rs : RelayerService) (env : SuiExecEnv) (s0 : SwapOrderService)
    (intent : UserIntent) (order : SwapOrderRec) (c0 : Nat)
    (amt : Nat) (ts oid : String) (dAt1 wAt : Nat) (res : EvmResolverModel)
    (imm : Immutables) (tx addr : String) (dAt2 : Nat) (o0 : SwapOrderRec)
    (hp : parseUnits intent.tokenAmount
      (if intent.srcChainAsset = "0x2::sui::SUI" then 9 else 6) = some amt)
    (h1 : env.suiDeploySrc = .ok (ts, oid, dAt1, wAt))
    (hr : rs.getResolver order.userIntent.dstChainId = .ok res)
    (hi : createDstImmutables order.userIntent order res.resolverAddress dAt1 = some imm)
    (h2 : env.evmDeployDst = .ok (tx, addr, dAt2))
    (hs : s0.getOrderByHash order.orderHash = some o0) :
    (executeSuiSwap rs env s0 intent order c0).res = .ok () ∧
    (executeSuiSwap rs env s0 intent order c0).store.getOrderByHash order.orderHash =
      some { o0 with
        deployedAt := some dAt2,
        escrowDstTxHash := some tx,
        evmEscrowAddress := some addr,
        escrowSrcTxHash := some ts,
        suiEscrowObjectId := some oid,
        updatedAt := max (max c0 (imm.timeLocks.dstPrivateWithdrawal dAt2)) wAt } ∧
    (0 < dAt2 →
      ((executeSuiSwap rs env s0 intent order c0).store.getOrderByHash
          order.orderHash).map SwapOrderRec.deployedAt = some (some dAt2)) := by
  have hstore : (executeSuiSwap rs env s0 intent order c0).store.getOrderByHash
      order.orderHash = some { o0 with
        deployedAt := some dAt2,
        escrowDstTxHash := some tx,
        evmEscrowAddress := some addr,
        escrowSrcTxHash := some ts,
        suiEscrowObjectId := some oid,
        updatedAt := max (max c0 (imm.timeLocks.dstPrivateWithdrawal dAt2)) wAt } := by
    simp only [executeSuiSwap, hp, h1, hr, hi, h2, SwapOrderService.addDeployedAt,
      SwapOrderService.addEscrowDstTxHash, SwapOrderService.addEvmEscrowAddress,
      SwapOrderService.addEscrowSrcTxHash, SwapOrderService.addSuiEscrowObjectId]
    exact (SwapOrderService.updOrder_getOrderByHash_self
      (SwapOrderService.updOrder_getOrderByHash_self
        (SwapOrderService.updOrder_getOrderByHash_self
          (SwapOrderService.updOrder_getOrderByHash_self
            (SwapOrderService.updOrder_getOrderByHash_self
              (SwapOrderService.updOrder_getOrderByHash_self hs)))))).trans rfl
  refine ⟨?_, hstore, fun _ => ?_⟩
  · simp only [executeSuiSwap, hp, h1, hr, hi, h2]
  · rw [hstore]
    rfl

/-- SDK order payload of the concrete EVM-to-Sui order used by the c5 run. -/
def c5SdkOrder : SdkOrder :=
  { salt := 1, maker := "0xU", makingAmount := 1000000, takingAmount := 1000000000,
    makerAsset := "0xbbbbbbbbbbbbbbbbbbbbbbbbbbbbbbbbbbbbbbbb", takerAsset := "0x2",
    receiver := "0x02",
    hashLock := "0x1111111111111111111111111111111111111111111111111111111111111111",
    timeLocks := relayerTimeLocks, srcSafetyDeposit := evmSafetyDeposit,
    dstSafetyDeposit := suiSafetyDeposit, nonce := 7 }

/-- Intent of the concrete EVM-to-Sui order used by the c5 run. -/
def c5Intent : UserIntent :=
  { srcChainId := 42161, dstChainId := 101, userAddress := "0xU",
    tokenAmount := "1",
    srcChainAsset := "0xbbbbbbbbbbbbbbbbbbbbbbbbbbbbbbbbbbbbbbbb",
    dstChainAsset := "0x2::sui::SUI",
    hashLock := "0x1111111111111111111111111111111111111111111111111111111111111111",
    receiver := "0x02" }

/-- Stored EVM order (present in both maps, as createEvmSwapOrder leaves it). -/
def c5Rec : SwapOrderRec :=
  { orderHash := "0xH5", userIntent := c5Intent, sdkOrder := some c5SdkOrder,
    createdAt := 1, updatedAt := 1 }

/-- Store holding c5Rec under both indices. -/
def c5Store : SwapOrderService :=
  { heap := [c5Rec], orders := [("0xH5", 0)], evmSwapOrders := [("0xH5", 0)] }

/-- Adapter results for the c5 run: source deploy succeeds (escrow 0xesc5,
deployedAt 1500), destination deploy fails. -/
def c5Env : EvmExecEnv :=
  { deploySrc := .ok ("srctx", "0xesc5", 1500), suiDeployDst := .error () }

/-- C5 counterexample: when the destination deployment fails after the
source deployment succeeded, executeEvmSwapOrder reports
RELAYER_EXECUTE_FAILED but the final store is exactly the last pre-failure
snapshot: the failure handler (updateOrderStatus) records neither a FAILED
state nor an error cause — the stored order is indistinguishable from one
of an interrupted healthy run (though the already-recorded escrow address
and deployedAt are indeed preserved). -/
theorem C5_counterexample_no_failed_state_recorded :
    ((executeEvmSwapOrder demoRelayer c5Env c5Store "0xH5" "sig5" 0).res =
      .error .RELAYER_EXECUTE_FAILED) ∧
    ((executeEvmSwapOrder demoRelayer c5Env c5Store "0xH5" "sig5" 0).snaps.getLast? =
      some (0, (executeEvmSwapOrder demoRelayer c5Env c5Store "0xH5" "sig5" 0).store)) ∧
    (((executeEvmSwapOrder demoRelayer c5Env c5Store "0xH5" "sig5" 0).store.getOrderByHash
        "0xH5").map (fun o => (o.evmEscrowAddress, o.deployedAt)) =
      some (some "0xesc5", some 1500)) := by
  refine ⟨by decide, by decide, by decide⟩

/-- C5 amended (proved): on any failure the catch block calls
updateOrderStatus, which is an identity on the store (no FAILED state, no
error cause — the order type has no status field in this revision), so the
final store of every run, failing or not, is exactly the store of the last
executed statement: nothing already recorded (escrow deploy tx hashes,
withdraw tx hashes, escrow address or object id, deployedAt) is removed or
reverted, and nothing about the failure is added. -/
theorem C5_amended_failure_is_noop_monotonic :
    (∀ (s : SwapOrderService) (h : String), (s.updateOrderStatus h).2 = s) ∧
    (∀ (rs : RelayerService) (env : EvmExecEnv) (s0 : SwapOrderService)
        (h sig : String) (c0 : Nat),
      (executeEvmSwapOrder rs env s0 h sig c0).snaps.getLast? =
        some ((executeEvmSwapOrder rs env s0 h sig c0).clock,
              (executeEvmSwapOrder rs env s0 h sig c0).store)) ∧
    (∀ (rs : RelayerService) (env : SuiExecEnv) (s0 : SwapOrderService)
        (intent : UserIntent) (order : SwapOrderRec) (c0 : Nat),
      (executeSuiSwap rs env s0 intent order c0).snaps.getLast? =
        some ((executeSuiSwap rs env s0 intent order c0).clock,
              (executeSuiSwap rs env s0 intent order c0).store)) := by
  refine ⟨SwapOrderService.updateOrderStatus_snd, ?_, ?_⟩
  · intro rs env s0 h sig c0
    unfold executeEvmSwapOrder
    repeat' split
    all_goals simp [SwapOrderService.updateOrderStatus_snd]
  · intro rs env s0 intent order c0
    unfold executeSuiSwap
    repeat' split
    all_goals simp [SwapOrderService.updateOrderStatus_snd]

/-- C2 (confirmed): in every run of executeEvmSwapOrder and of
executeSuiSwap, the destination-escrow deployment is invoked only after the
source-escrow deployment has returned successfully (a transaction reference,
escrow reference and deployedAt): whenever deployDst appears in the adapter
call list, the list is exactly deploySrc followed by deployDst and the
source deploy call returned ok. -/
theorem C2_deploy_source_before_destination :
    (∀ (rs : RelayerService) (env : EvmExecEnv) (s0 : SwapOrderService)
        (h sig : String) (c0 : Nat),
      AdapterCall.deployDst ∈ (executeEvmSwapOrder rs env s0 h sig c0).calls →
        (executeEvmSwapOrder rs env s0 h sig c0).calls =
          [AdapterCall.deploySrc, AdapterCall.deployDst] ∧
        ∃ v, env.deploySrc = .ok v) ∧
    (∀ (rs : RelayerService) (env : SuiExecEnv) (s0 : SwapOrderService)
        (intent : UserIntent) (order : SwapOrderRec) (c0 : Nat),
      AdapterCall.deployDst ∈ (executeSuiSwap rs env s0 intent order c0).calls →
        (executeSuiSwap rs env s0 intent order c0).calls =
          [AdapterCall.deploySrc, AdapterCall.deployDst] ∧
        ∃ v, env.suiDeploySrc = .ok v) := by
  constructor
  · intro rs env s0 h sig c0
    unfold executeEvmSwapOrder
    repeat' split
    all_goals intro hmem
    all_goals first
      | (exact ⟨rfl, _, by assumption⟩)
      | (simp at hmem)
  · intro rs env s0 intent order c0
    unfold executeSuiSwap
    repeat' split
    all_goals intro hmem
    all_goals first
      | (exact ⟨rfl, _, by assumption⟩)
      | (simp at hmem)

/-- Adapter environment in which both deployments succeed. -/
def c2Env : EvmExecEnv :=
  { deploySrc := .ok ("srctx", "0xesc5", 1500),
    suiDeployDst := .ok ("suitx", "0xobj2", 1600) }

/-- Witness for C2 on a concrete successful run. -/
theorem C2_witness :
    (executeEvmSwapOrder demoRelayer c2Env c5Store "0xH5" "sig5" 0).calls =
      [AdapterCall.deploySrc, AdapterCall.deployDst] ∧
    ∃ v, c2Env.deploySrc = .ok v :=
  (C2_deploy_source_before_destination).1 demoRelayer c2Env c5Store "0xH5" "sig5" 0
    (by decide)

/-- Witness for the C8 amended theorem at the concrete c8 run. -/
theorem C8_amended_witness :
    ((executeSuiSwap demoRelayer c8Env c8Store c8Intent c8Rec 0).store.getOrderByHash
        "0xH8").map SwapOrderRec.deployedAt = some (some 2000) := by
  have h := C8_amended_final_deployedAt_is_destination demoRelayer c8Env c8Store
    c8Intent c8Rec 0 1000000000 "suitx" "0xobj8" 1000 1100 arbResolver
    { orderHash := "0xH8", hashLock := c8Intent.hashLock,
      maker := c8Intent.receiver, taker := arbResolver.resolverAddress,
      token := c8Intent.dstChainAsset, amount := 1000000,
      safetyDeposit := evmSafetyDeposit, timeLocks := relayerTimeLocks,
      deployedAt := 1000 }
    "evmtx" "0xesc8" 2000 c8Rec (by decide) (by decide) (by decide) (by decide)
    (by decide) (by decide)
  exact h.2.2 (by decide)

/-- Witness for C4 at a concrete mid-execution state of the c8 run: the
snapshot taken right after the source deployment (clock 0, before the
source-side withdrawal time 1100) rejects the reveal with
ESCROW_NOT_DEPLOYED and makes no withdraw call. -/
theorem C4_witness :
    revealSecretBody demoRelayer (fun _ => c8Intent.hashLock) ⟨.ok "wa", .ok "wb"⟩
        (c8Store.addDeployedAt "0xH8" 1000 0) "0xH8" "sec" 0 =
      ⟨.error .ESCROW_NOT_DEPLOYED, c8Store.addDeployedAt "0xH8" 1000 0, 0, [],
       [(0, c8Store.addDeployedAt "0xH8" 1000 0)]⟩ :=
  (C4_reveal_before_window_no_withdraw).1 demoRelayer demoRelayer
    (fun _ => c8Intent.hashLock) ⟨.ok "wa", .ok "wb"⟩ c8Env c8Store c8Intent c8Rec
    0 1000000000 "suitx" "0xobj8" 1000 1100 arbResolver
    { orderHash := "0xH8", hashLock := c8Intent.hashLock,
      maker := c8Intent.receiver, taker := arbResolver.resolverAddress,
      token := c8Intent.dstChainAsset, amount := 1000000,
      safetyDeposit := evmSafetyDeposit, timeLocks := relayerTimeLocks,
      deployedAt := 1000 }
    "evmtx" "0xesc8" 2000 c8Rec "sec" (by decide) (by decide) (by decide)
    (by decide) (by decide) (by decide) (by decide) (by decide) (by decide)
    0 (c8Store.addDeployedAt "0xH8" 1000 0) (by decide) (.inl (by decide))

/-- Intent that the spec calls invalid — zero amount and identical source
and destination chains — but with well-formed addresses. -/
def c6Intent : UserIntent :=
  { srcChainId := 42161, dstChainId := 42161,
    userAddress := "0xaaaaaaaaaaaaaaaaaaaaaaaaaaaaaaaaaaaaaaaa",
    tokenAmount := "0",
    srcChainAsset := "0xbbbbbbbbbbbbbbbbbbbbbbbbbbbbbbbbbbbbbbbb",
    dstChainAsset := "0x2::sui::SUI",
    hashLock := "0x1111111111111111111111111111111111111111111111111111111111111111",
    receiver := "0x02" }

/-- Build environment with fixed salt, nonce and order-hash function. -/
def c6Env : BuildEnv :=
  { salt := 5, nonce := 9, orderHashOf := fun _ => "0xORD6" }

/-- C6 counterexample: buildEvmSwapOrder accepts an intent with zero amount
and equal source and destination chains — no ValidationError is raised and
an order IS created in the store for it (the validation middleware exists in
middleware/validation.ts but is commented out of the route, and
buildEvmSwapOrder itself checks nothing). -/
theorem C6_counterexample_invalid_intent_accepted :
    (((buildEvmSwapOrder demoRelayer c6Env { } c6Intent 4).2.getOrderByHash "0xORD6").map
        (fun o => (o.userIntent.tokenAmount, o.userIntent.srcChainId,
                   o.userIntent.dstChainId)) = some ("0", 42161, 42161)) ∧
    ((buildEvmSwapOrder demoRelayer c6Env { } c6Intent 4).1 ≠
      .error .VALIDATION_ERROR) := by
  refine ⟨by decide, by decide⟩

/-- C6 amended (proved): buildEvmSwapOrder performs no intent validation.
A source chain other than 42161 returns undefined with the store untouched;
every failure it can raise is the generic RELAYER_BUILD_FAILED (never
ValidationError), also leaving the store untouched; and whenever the chain
is 42161, the resolver is registered and the SDK constructors accept the
operand formats, an order is created in the store — the SDK construction
succeeds for any amount that parses and any chain-id pair, so zero amounts,
equal chains and unsupported destination chains are not rejected. -/
theorem C6_amended_build_performs_no_validation :
    (∀ (rs : RelayerService) (env : BuildEnv) (s0 : SwapOrderService)
        (intent : UserIntent) (now : Nat),
      intent.srcChainId ≠ 42161 →
      buildEvmSwapOrder rs env s0 intent now = (.ok none, s0)) ∧
    (∀ (rs : RelayerService) (env : BuildEnv) (s0 : SwapOrderService)
        (intent : UserIntent) (now : Nat) (e : SwapErrorCode),
      (buildEvmSwapOrder rs env s0 intent now).1 = .error e →
      e = .RELAYER_BUILD_FAILED ∧ (buildEvmSwapOrder rs env s0 intent now).2 = s0) ∧
    (∀ (rs : RelayerService) (env : BuildEnv) (s0 : SwapOrderService)
        (intent : UserIntent) (now : Nat) (resolver : EvmResolverModel)
        (order : SdkOrder),
      intent.srcChainId = 42161 →
      rs.getResolver 42161 = .ok resolver →
      createEvmCrossChainOrder intent resolver env = some order →
      (buildEvmSwapOrder rs env s0 intent now).1 =
        .ok (some (generateOrderTypedData 42161 order resolver.limitOrder)) ∧
      (buildEvmSwapOrder rs env s0 intent now).2.getOrderByHash
          (env.orderHashOf (generateOrderTypedData 42161 order resolver.limitOrder)) =
        some { orderHash :=
                 env.orderHashOf (generateOrderTypedData 42161 order resolver.limitOrder),
               userIntent := intent,
               typedData := some (generateOrderTypedData 42161 order resolver.limitOrder),
               sdkOrder := some order, createdAt := now, updatedAt := now }) ∧
    (∀ (intent : UserIntent) (resolver : EvmResolverModel) (env : BuildEnv)
        (m t : Nat),
      isValidEvmAddress resolver.escrowFactory = true →
      isValidHashLock intent.hashLock = true →
      isValidEvmAddress intent.userAddress = true →
      isValidEvmAddress intent.srcChainAsset = true →
      isValidSuiAddress (String.mk (takeBeforeSep intent.dstChainAsset.toList)) = true →
      isValidSuiAddress intent.receiver = true →
      isValidEvmAddress resolver.resolverAddress = true →
      parseUnits intent.tokenAmount 6 = some m →
      parseUnits intent.tokenAmount
        (if intent.dstChainAsset = "0x2::sui::SUI" then 9 else 6) = some t →
      createEvmCrossChainOrder intent resolver env =
        some { salt := env.salt, maker := intent.userAddress, makingAmount := m,
               takingAmount := t, makerAsset := intent.srcChainAsset,
               takerAsset := String.mk (takeBeforeSep intent.dstChainAsset.toList),
               receiver := intent.receiver, hashLock := intent.hashLock,
               timeLocks := relayerTimeLocks, srcSafetyDeposit := evmSafetyDeposit,
               dstSafetyDeposit := suiSafetyDeposit, nonce := env.nonce }) := by
  refine ⟨?_, ?_, ?_, ?_⟩
  · intro rs env s0 intent now hne
    unfold buildEvmSwapOrder
    rw [if_neg hne]
  · intro rs env s0 intent now e he
    unfold buildEvmSwapOrder at he ⊢
    by_cases hc : intent.srcChainId = 42161
    · rw [if_pos hc] at he ⊢
      rcases hr : rs.getResolver intent.srcChainId with e2 | resolver
      · simp only [hr] at he ⊢
        injection he with h2
        exact ⟨h2.symm, by simp⟩
      · simp only [hr] at he ⊢
        rcases ho : createEvmCrossChainOrder intent resolver env with _ | order
        · simp only [ho] at he ⊢
          injection he with h2
          exact ⟨h2.symm, by simp⟩
        · simp only [ho] at he
          exact absurd he (by simp)
    · rw [if_neg hc] at he
      exact absurd he (by simp)
  · intro rs env s0 intent now resolver order hc hres ho
    unfold buildEvmSwapOrder
    rw [if_pos hc, hc]
    simp only [hres, ho]
    refine ⟨trivial, ?_⟩
    show (SwapOrderService.createEvmSwapOrder s0 _ now).2.getOrderByHash _ = _
    unfold SwapOrderService.createEvmSwapOrder SwapOrderService.getOrderByHash
    simp only [mapGet_mapSet_self, Option.some_bind]
    exact heap_concat _ _
  · intro intent resolver env m t h1 h2 h3 h4 h5 h6 h7 ha hb
    unfold createEvmCrossChainOrder
    rw [h1, h2, h3, h4, h5, h6, h7]
    simp only [Bool.and_self, if_true, ha, hb]

/-- Witness for the C6 amended theorem at concrete inputs: a non-42161
source chain is passed through untouched, and the invalid c6 intent leads to
an order being created. -/
theorem C6_amended_witness :
    (buildEvmSwapOrder demoRelayer c6Env { } c3Intent 4 = (.ok none, { })) ∧
    ((buildEvmSwapOrder demoRelayer c6Env { } c6Intent 4).2.getOrderByHash "0xORD6" ≠
      none) := by
  constructor
  · exact (C6_amended_build_performs_no_validation).1 demoRelayer c6Env { } c3Intent 4
      (by decide)
  · have h := ((C6_amended_build_performs_no_validation).2.2.1 demoRelayer c6Env { }
      c6Intent 4 arbResolver
      { salt := 5, maker := c6Intent.userAddress, makingAmount := 0, takingAmount := 0,
        makerAsset := c6Intent.srcChainAsset, takerAsset := "0x2",
        receiver := c6Intent.receiver, hashLock := c6Intent.hashLock,
        timeLocks := relayerTimeLocks, srcSafetyDeposit := evmSafetyDeposit,
        dstSafetyDeposit := suiSafetyDeposit, nonce := 9 }
      (by decide) (by decide) (by decide)).2
    rw [show c6Env.orderHashOf (generateOrderTypedData 42161
      { salt := 5, maker := c6Intent.userAddress, makingAmount := 0, takingAmount := 0,
        makerAsset := c6Intent.srcChainAsset, takerAsset := "0x2",
        receiver := c6Intent.receiver, hashLock := c6Intent.hashLock,
        timeLocks := relayerTimeLocks, srcSafetyDeposit := evmSafetyDeposit,
        dstSafetyDeposit := suiSafetyDeposit, nonce := 9 } arbResolver.limitOrder) =
      "0xORD6" from rfl] at h
    rw [h]
    exact fun hx => Option.noConfusion hx

/-- Stored EVM order that already carries a signature. -/
def c7Rec : SwapOrderRec :=
  { orderHash := "0xH7", userIntent := c5Intent, signature := some "s1",
    sdkOrder := some c5SdkOrder, createdAt := 1, updatedAt := 1 }

/-- Store holding c7Rec under both indices. -/
def c7Store : SwapOrderService :=
  { heap := [c7Rec], orders := [("0xH7", 0)], evmSwapOrders := [("0xH7", 0)] }

/-- C7 counterexample: (i) calling a set_* store method a second time with
the same value does NOT leave the stored order unchanged — updatedAt is
refreshed, so the records differ; (ii) executing an order whose signature is
already present DOES overwrite the stored signature: the in-place
order.signature assignment replaces s1 with the newly supplied s2 in the
stored record. -/
theorem C7_counterexample_not_idempotent :
    ((c3Store.addSecret "0xH" "sec" 1).getOrderByHash "0xH" ≠
      ((c3Store.addSecret "0xH" "sec" 1).addSecret "0xH" "sec" 2).getOrderByHash "0xH") ∧
    (((executeEvmSwapOrder demoRelayer c2Env c7Store "0xH7" "s2" 0).store.getEvmOrderByHash
        "0xH7").map SwapOrderRec.signature = some (some "s2")) ∧
    (some (some "s2") ≠ (some (some "s1") : Option (Option String))) := by
  refine ⟨by decide, by decide, by decide⟩

/-- C7 amended (proved): executing an order whose signature is already
present does not skip deployment, but it unconditionally overwrites the
stored order's signature with the newly supplied one; and calling a set_*
store method a second time with the same value does not error and leaves
every field of the stored order unchanged except updatedAt, which is
refreshed to the time of the second call (the double call equals a single
call performed at the later time). -/
theorem C7_amended_set_twice_and_signature_overwrite :
    (∀ (s : SwapOrderService) (h v : String) (n1 n2 n : Nat) (o0 : SwapOrderRec),
      s.getOrderByHash h = some o0 →
      (((s.addSecret h v n1).addSecret h v n2).getOrderByHash h =
        some { o0 with secret := some v, updatedAt := n2 }) ∧
      (((s.addEscrowSrcTxHash h v n1).addEscrowSrcTxHash h v n2).getOrderByHash h =
        some { o0 with escrowSrcTxHash := some v, updatedAt := n2 }) ∧
      (((s.addEscrowDstTxHash h v n1).addEscrowDstTxHash h v n2).getOrderByHash h =
        some { o0 with escrowDstTxHash := some v, updatedAt := n2 }) ∧
      (((s.addEscrowSrcWithdrawTxHash h v n1).addEscrowSrcWithdrawTxHash h v n2).getOrderByHash h =
        some { o0 with escrowSrcWithdrawTxHash := some v, updatedAt := n2 }) ∧
      (((s.addEscrowDstWithdrawTxHash h v n1).addEscrowDstWithdrawTxHash h v n2).getOrderByHash h =
        some { o0 with escrowDstWithdrawTxHash := some v, updatedAt := n2 }) ∧
      (((s.addEvmEscrowAddress h v n1).addEvmEscrowAddress h v n2).getOrderByHash h =
        some { o0 with evmEscrowAddress := some v, updatedAt := n2 }) ∧
      (((s.addSuiEscrowObjectId h v n1).addSuiEscrowObjectId h v n2).getOrderByHash h =
        some { o0 with suiEscrowObjectId := some v, updatedAt := n2 }) ∧
      (((s.addDeployedAt h n n1).addDeployedAt h n n2).getOrderByHash h =
        some { o0 with deployedAt := some n, updatedAt := n2 })) ∧
    (∀ (s : SwapOrderService) (h v : String) (n1 n2 : Nat) (o0 : SwapOrderRec),
      s.getEvmOrderByHash h = some o0 →
      ((s.addEvmSignature h v n1).addEvmSignature h v n2).getEvmOrderByHash h =
        some { o0 with signature := some v, updatedAt := n2 }) ∧
    (∀ (rs : RelayerService) (env : EvmExecEnv) (s0 : SwapOrderService)
        (h sig oldSig : String) (c0 r : Nat) (order : SwapOrderRec) (so : SdkOrder)
        (resv : EvmResolverModel),
      mapGet s0.evmSwapOrders h = some r →
      s0.heap[r]? = some order →
      order.signature = some oldSig →
      order.sdkOrder = some so →
      rs.getResolver order.userIntent.srcChainId = .ok resv →
      ((executeEvmSwapOrder rs env s0 h sig c0).store.getEvmOrderByHash h =
        some { order with signature := some sig }) ∧
      AdapterCall.deploySrc ∈ (executeEvmSwapOrder rs env s0 h sig c0).calls) := by
  refine ⟨?_, ?_, ?_⟩
  · intro s h v n1 n2 n o0 hk
    refine ⟨?_, ?_, ?_, ?_, ?_, ?_, ?_, ?_⟩ <;>
      exact (SwapOrderService.updOrder_getOrderByHash_self
        (SwapOrderService.updOrder_getOrderByHash_self hk)).trans rfl
  · intro s h v n1 n2 o0 hk
    exact (SwapOrderService.addEvmSignature_getEvmOrderByHash_self
      (SwapOrderService.addEvmSignature_getEvmOrderByHash_self hk)).trans rfl
  · intro rs env s0 h sig oldSig c0 r order so resv hm hh hsigp hso hres
    have hnn : ¬order.signature = none := by
      rw [hsigp]
      exact fun hx => Option.noConfusion hx
    have hset := SwapOrderService.getEvmOrderByHash_set (s := s0) hm hh
      { order with signature := some sig }
    rw [hso] at hset
    rcases h1 : env.deploySrc with _ | v1
    · constructor
      · simp only [executeEvmSwapOrder, hm, hh, hres, hso, h1, if_neg hnn,
          SwapOrderService.updateOrderStatus_snd]
        exact hset
      · simp only [executeEvmSwapOrder, hm, hh, hres, hso, h1, if_neg hnn]
        simp
    · obtain ⟨stx, addr, dAt⟩ := v1
      rcases h2 : env.suiDeployDst with _ | v2
      · constructor
        · simp only [executeEvmSwapOrder, hm, hh, hres, hso, h1, h2, if_neg hnn,
            SwapOrderService.updateOrderStatus_snd,
            SwapOrderService.addEvmEscrowAddress, SwapOrderService.addDeployedAt]
          exact SwapOrderService.updOrder_getEvmOrderByHash
            (SwapOrderService.updOrder_getEvmOrderByHash hset)
        · simp only [executeEvmSwapOrder, hm, hh, hres, hso, h1, h2, if_neg hnn]
          simp
      · obtain ⟨ts2, oid, dstWt⟩ := v2
        constructor
        · simp only [executeEvmSwapOrder, hm, hh, hres, hso, h1, h2, if_neg hnn,
            SwapOrderService.addEvmEscrowAddress, SwapOrderService.addDeployedAt,
            SwapOrderService.addEscrowDstTxHash, SwapOrderService.addSuiEscrowObjectId,
            SwapOrderService.addEscrowSrcTxHash]
          exact SwapOrderService.updOrder_getEvmOrderByHash
            (SwapOrderService.updOrder_getEvmOrderByHash
              (SwapOrderService.updOrder_getEvmOrderByHash
                (SwapOrderService.updOrder_getEvmOrderByHash
                  (SwapOrderService.updOrder_getEvmOrderByHash hset))))
        · simp only [executeEvmSwapOrder, hm, hh, hres, hso, h1, h2, if_neg hnn]
          simp

/-- Witness for the C7 amended theorem at concrete inputs. -/
theorem C7_amended_witness :
    (((c3Store.addSecret "0xH" "sec" 1).addSecret "0xH" "sec" 2).getOrderByHash "0xH" =
      some { c3Rec with secret := some "sec", updatedAt := 2 }) ∧
    ((executeEvmSwapOrder demoRelayer c2Env c7Store "0xH7" "s2" 0).store.getEvmOrderByHash
        "0xH7" = some { c7Rec with signature := some "s2" }) := by
  constructor
  · exact ((C7_amended_set_twice_and_signature_overwrite).1 c3Store "0xH" "sec" 1 2 0
      c3Rec (by decide)).1
  · exact ((C7_amended_set_twice_and_signature_overwrite).2.2 demoRelayer c2Env
      c7Store "0xH7" "s2" "s1" 0 0 c7Rec c5SdkOrder arbResolver (by decide)
      (by decide) (by decide) (by decide) (by decide)).1

end NetherSwap
